import Mathlib

/-!
Verification development for the Skintel repository (skin_analyzer.py,
image_processor.py, recommendation_engine.py, app.py).

Numeric model: Python floats are idealized as exact rationals, except that the
IEEE NaN value (which genuinely arises in this code base, from
`np.mean(b_channel[b_channel > 128])` on an empty slice) is modelled explicitly
by a dedicated constructor.  Every comparison involving NaN is false, matching
CPython/NumPy semantics; `min`/`max` are modelled exactly as CPython's builtin
two-argument `min(a, b) = b if b < a else a` and `max(a, b) = b if b > a else a`.
-/

namespace Skintel

/-- A Python float: either NaN or a finite value idealized as a rational. -/
inductive PyVal where
  | nan : PyVal
  | val : ℚ → PyVal
deriving DecidableEq

/-- Finiteness of a modelled Python float (`math.isfinite`). -/
def PyVal.isFinite : PyVal → Bool
  | .nan => false
  | .val _ => true

/-- Python `a < b` (false whenever either side is NaN). -/
def pyLt : PyVal → PyVal → Bool
  | .val a, .val b => decide (a < b)
  | _, _ => false

/-- Python `a >= b` (false whenever either side is NaN). -/
def pyGe : PyVal → PyVal → Bool
  | .val a, .val b => decide (b ≤ a)
  | _, _ => false

/-- Python builtin `min(a, b)`: returns `b` if `b < a` else `a`. -/
def pyMin (a b : PyVal) : PyVal := if pyLt b a then b else a

/-- Python builtin `max(a, b)`: returns `b` if `a < b` else `a`. -/
def pyMax (a b : PyVal) : PyVal := if pyLt a b then b else a

/-- Python `a + b` with NaN propagation. -/
def pyAdd : PyVal → PyVal → PyVal
  | .val a, .val b => .val (a + b)
  | _, _ => .nan

/-- Python `a - b` with NaN propagation. -/
def pySub : PyVal → PyVal → PyVal
  | .val a, .val b => .val (a - b)
  | _, _ => .nan

/-- Python `a * b` with NaN propagation. -/
def pyMul : PyVal → PyVal → PyVal
  | .val a, .val b => .val (a * b)
  | _, _ => .nan

/-- Python `a / b` with NaN propagation.  A zero divisor is mapped to NaN;
in every use in this repository the divisor is a fixed nonzero constant, so
this branch is unreachable. -/
def pyDiv : PyVal → PyVal → PyVal
  | .val a, .val b => if b = 0 then .nan else .val (a / b)
  | _, _ => .nan

@[simp] theorem pyLt_val (a b : ℚ) : pyLt (.val a) (.val b) = decide (a < b) := rfl

@[simp] theorem pyGe_val (a b : ℚ) : pyGe (.val a) (.val b) = decide (b ≤ a) := rfl

@[simp] theorem pyMin_val (a b : ℚ) : pyMin (.val a) (.val b) = .val (min a b) := by
  simp only [pyMin, pyLt_val]
  rcases lt_or_ge b a with h | h
  · simp [h, min_eq_right h.le]
  · simp [not_lt.mpr h, min_eq_left h]

@[simp] theorem pyMax_val (a b : ℚ) : pyMax (.val a) (.val b) = .val (max a b) := by
  simp only [pyMax, pyLt_val]
  rcases lt_or_ge a b with h | h
  · simp [h, max_eq_right h.le]
  · simp [not_lt.mpr h, max_eq_left h]

@[simp] theorem pyMin_nan_right (a : PyVal) : pyMin a .nan = a := by
  cases a <;> rfl

@[simp] theorem pyMax_val_nan (a : ℚ) : pyMax (.val a) .nan = .val a := rfl

@[simp] theorem pyAdd_nan_right (a : PyVal) : pyAdd a .nan = .nan := by cases a <;> rfl

@[simp] theorem pyAdd_nan_left (a : PyVal) : pyAdd .nan a = .nan := rfl

/-- Round-half-even on rationals, the rounding mode of Python's builtin
`round` (idealized to exact arithmetic). -/
def rhe (q : ℚ) : ℤ :=
  if q - q.floor < 1 / 2 then q.floor
  else if 1 / 2 < q - q.floor then q.floor + 1
  else if q.floor % 2 = 0 then q.floor else q.floor + 1

/-- Python `round(x, 1)`. -/
def pyRound1 : PyVal → PyVal
  | .nan => .nan
  | .val q => .val ((rhe (q * 10) : ℚ) / 10)

/-- Python `round(x, 3)`. -/
def pyRound3 : PyVal → PyVal
  | .nan => .nan
  | .val q => .val ((rhe (q * 1000) : ℚ) / 1000)

@[simp] theorem pyRound1_val (q : ℚ) :
    pyRound1 (.val q) = .val ((rhe (q * 10) : ℚ) / 10) := rfl

@[simp] theorem pyRound3_val (q : ℚ) :
    pyRound3 (.val q) = .val ((rhe (q * 1000) : ℚ) / 1000) := rfl

/-! ## Skin analyzer (skin_analyzer.py) -/

/-- The feature dictionary handed to `SkinAnalyzer.analyze_skin_conditions`:
a partial mapping from feature names to Python floats (`None` models a key
that is absent from the dict). -/
def FeatureSet := String → Option PyVal

/-- One entry of `SkinAnalyzer.condition_models`: parallel lists of feature
names, weights and thresholds, plus a base probability. -/
structure ConditionModel where
  features : List String
  weights : List ℚ
  thresholds : List ℚ
  base_probability : ℚ

/-- The six fixed condition identities of `SkinAnalyzer.condition_models`,
in dictionary insertion order. -/
inductive ConditionId where
  | acanthosis | xanthelasma | dry | inflammatory | seborrheic | ageSpots
deriving DecidableEq

/-- Dictionary iteration order of `SkinAnalyzer.condition_models`
(Python dicts iterate in insertion order). -/
def allConditions : List ConditionId :=
  [.acanthosis, .xanthelasma, .dry, .inflammatory, .seborrheic, .ageSpots]

/-- The dictionary keys of `SkinAnalyzer.condition_models`. -/
def conditionName : ConditionId → String
  | .acanthosis => "Acanthosis Nigricans (Insulin-related Hyperpigmentation)"
  | .xanthelasma => "Xanthelasma (Cholesterol Deposits)"
  | .dry => "Dry/Dehydrated Skin"
  | .inflammatory => "Inflammatory Rash"
  | .seborrheic => "Seborrheic Dermatitis"
  | .ageSpots => "Age Spots/Sun Damage"

/-- The per-condition models of `SkinAnalyzer.__init__` (weights, thresholds
and base probabilities transcribed verbatim from skin_analyzer.py lines 9-46). -/
def conditionModel : ConditionId → ConditionModel
  | .acanthosis =>
      { features := ["dark_pixel_ratio", "contrast", "texture_roughness"],
        weights := [6/10, 2/10, 2/10], thresholds := [15/100, 20, 3/10],
        base_probability := 1/10 }
  | .xanthelasma =>
      { features := ["yellowness", "brightness", "color_variance"],
        weights := [7/10, 2/10, 1/10], thresholds := [140, 180, 500],
        base_probability := 5/100 }
  | .dry =>
      { features := ["texture_roughness", "contrast", "edge_density"],
        weights := [5/10, 3/10, 2/10], thresholds := [4/10, 25, 1/10],
        base_probability := 2/10 }
  | .inflammatory =>
      { features := ["redness_index", "color_variance", "edge_density"],
        weights := [6/10, 25/100, 15/100], thresholds := [1/10, 800, 8/100],
        base_probability := 8/100 }
  | .seborrheic =>
      { features := ["redness_index", "texture_roughness", "yellowness"],
        weights := [4/10, 4/10, 2/10], thresholds := [8/100, 35/100, 135],
        base_probability := 12/100 }
  | .ageSpots =>
      { features := ["dark_pixel_ratio", "color_variance", "brightness"],
        weights := [5/10, 3/10, 2/10], thresholds := [1/10, 600, 120],
        base_probability := 15/100 }

/-- The feature-name list of the first normalization branch in
`_calculate_condition_probability` (skin_analyzer.py line 94). -/
def higher_is_stronger : List String :=
  ["dark_pixel_ratio", "edge_density", "texture_roughness", "redness_index"]

/-- The feature-name list of the second normalization branch in
`_calculate_condition_probability` (skin_analyzer.py line 97). -/
def above_threshold : List String := ["brightness", "yellowness"]

/-- The normalization of one feature value relative to its threshold
(skin_analyzer.py lines 93-102).  The final `else` branch is the code's
catch-all for `contrast` and `color_variance`, with the same formula as the
first branch. -/
def normScore (name : String) (v : PyVal) (t : ℚ) : PyVal :=
  if name ∈ higher_is_stronger then pyMin (pyDiv v (.val t)) (.val 1)
  else if name ∈ above_threshold then
    pyMax (.val 0) (pyMin (pyDiv (pySub v (.val t)) (.val (255 - t))) (.val 1))
  else pyMin (pyDiv v (.val t)) (.val 1)

/-- The `feature_scores` list built by the loop of
`_calculate_condition_probability` (skin_analyzer.py lines 86-106):
a present feature contributes its normalized score times its weight,
an absent feature appends a literal `0`. -/
def featureScores (fs : FeatureSet) (m : ConditionModel) : List PyVal :=
  (m.features.zip (m.weights.zip m.thresholds)).map fun nwt =>
    match fs nwt.1 with
    | some v => pyMul (normScore nwt.1 v nwt.2.2) (.val nwt.2.1)
    | none => .val 0

/-- Python `sum(feature_scores)` (skin_analyzer.py line 109). -/
def weightedScore (fs : FeatureSet) (m : ConditionModel) : PyVal :=
  (featureScores fs m).foldl pyAdd (.val 0)

/-- `_calculate_condition_probability` (skin_analyzer.py lines 78-115).  The
noise argument models the value drawn from `np.random.normal(0, 0.05)`; the
returned value is `max(0, min(base + weighted + noise, 0.95))`. -/
def calculate_condition_probability (fs : FeatureSet) (m : ConditionModel)
    (noise : ℚ) : PyVal :=
  pyMax (.val 0)
    (pyMin (pyAdd (pyAdd (.val m.base_probability) (weightedScore fs m)) (.val noise))
      (.val (95 / 100)))

/-- `_determine_risk_level` (skin_analyzer.py lines 117-126): thresholds are
applied to `confidence * 100`, the un-rounded probability scaled to percent. -/
def determine_risk_level (confidence : PyVal) : String :=
  if pyGe (pyMul confidence (.val 100)) (.val 70) then "High"
  else if pyGe (pyMul confidence (.val 100)) (.val 40) then "Medium"
  else "Low"

/-- `_get_condition_description` (skin_analyzer.py lines 128-144). -/
def get_condition_description : ConditionId → String
  | .acanthosis =>
      "Dark, velvety patches often associated with insulin resistance and diabetes risk"
  | .xanthelasma =>
      "Yellowish cholesterol deposits, typically around the eyes, linked to lipid disorders"
  | .dry =>
      "Rough, flaky, or tight skin texture indicating potential dehydration or barrier dysfunction"
  | .inflammatory =>
      "Red, irritated skin areas that may indicate allergic reactions or inflammatory conditions"
  | .seborrheic =>
      "Scaly, itchy rash commonly affecting oily areas, often linked to stress or yeast overgrowth"
  | .ageSpots =>
      "Dark spots or patches resulting from UV exposure and natural aging processes"

/-- `_get_relevant_features` (skin_analyzer.py lines 146-152): the features of
the model that are present in the dict, rounded to 3 decimals, in model order. -/
def get_relevant_features (fs : FeatureSet) (m : ConditionModel) :
    List (String × PyVal) :=
  m.features.filterMap fun name =>
    match fs name with
    | some v => some (name, pyRound3 v)
    | none => none

/-- One entry of the `results` dict of `analyze_skin_conditions`
(skin_analyzer.py lines 69-74). -/
structure ConditionResult where
  confidence : PyVal
  risk_level : String
  description : String
  detected_features : List (String × PyVal)
deriving DecidableEq

/-- The process-wide pseudo-random stream: `random.seed(42)` / `np.random.seed(42)`
fix the stream of values that successive `np.random.normal(0, 0.05)` calls
return, and `idx` is how many values have been consumed so far.  Seeding with
a fixed seed yields index 0 of the stream determined by that seed. -/
structure RngState where
  stream : ℕ → ℚ
  idx : ℕ

/-- One call of `np.random.normal(0, 0.05)`: returns the next stream value and
advances the process-wide state. -/
def draw (s : RngState) : ℚ × RngState := (s.stream s.idx, ⟨s.stream, s.idx + 1⟩)

/-- The state obtained immediately after re-initializing the random source
with a fixed seed (the seed determines the stream; the position is reset to 0). -/
def seedInit (stream : ℕ → ℚ) : RngState := ⟨stream, 0⟩

/-- The result entry built for one condition inside the loop of
`analyze_skin_conditions` (skin_analyzer.py lines 64-74). -/
def mkResult (fs : FeatureSet) (c : ConditionId) (noise : ℚ) : ConditionResult :=
  { confidence := pyRound1 (pyMul (calculate_condition_probability fs (conditionModel c) noise) (.val 100)),
    risk_level := determine_risk_level (calculate_condition_probability fs (conditionModel c) noise),
    description := get_condition_description c,
    detected_features := get_relevant_features fs (conditionModel c) }

/-- The loop of `analyze_skin_conditions` over a list of condition identities,
threading the process-wide random state: each iteration draws one noise value. -/
def analyzeList (fs : FeatureSet) :
    List ConditionId → RngState → List (ConditionId × ConditionResult) × RngState
  | [], s => ([], s)
  | c :: cs, s =>
      let d := draw s
      let rest := analyzeList fs cs d.2
      ((c, mkResult fs c d.1) :: rest.1, rest.2)

/-- `analyze_skin_conditions` (skin_analyzer.py lines 52-76): one result per
condition of `condition_models`, in dict order, plus the advanced random state. -/
def analyze_skin_conditions (fs : FeatureSet) (s : RngState) :
    List (ConditionId × ConditionResult) × RngState :=
  analyzeList fs allConditions s

/-! ## Image processor (image_processor.py)

`extract_features` receives the preprocessed image and derives per-plane
statistics.  The color-space conversions (`cv2.cvtColor`), the Canny edge
detector and the HSV skin mask are external OpenCV calls; the embedding
therefore takes the derived planes (8-bit channel grids, boolean masks) as
inputs and models the statistics the repository itself computes over them.
Each plane of an 8-bit image satisfies `pix i j ≤ 255`. -/

/-- A single-channel raster: height, width, and the sample value at each
(row, column) position. -/
structure Plane where
  h : ℕ
  w : ℕ
  pix : ℕ → ℕ → ℕ

/-- All samples of the plane are 8-bit values. -/
def ValidPlane (g : Plane) : Prop := ∀ i j, g.pix i j ≤ 255

/-- The index set of an `h × w` raster. -/
def grid (h w : ℕ) : Finset (ℕ × ℕ) := Finset.range h ×ˢ Finset.range w

/-- OpenCV `BORDER_REFLECT_101` index reflection (the default border mode of
`cv2.Sobel`): index -1 maps to 1, index n maps to n-2. -/
def reflIdx (n : ℕ) (i : ℤ) : ℕ :=
  if i < 0 then (-i).toNat else if (n : ℤ) ≤ i then (2 * (n : ℤ) - 2 - i).toNat else i.toNat

/-- Plane access at possibly out-of-range integer coordinates, with
reflect-101 border handling. -/
def at2 (g : Plane) (i j : ℤ) : ℤ := g.pix (reflIdx g.h i) (reflIdx g.w j)

/-- The horizontal Sobel derivative `cv2.Sobel(gray, CV_64F, 1, 0, ksize=3)`
at one pixel (kernel [[-1,0,1],[-2,0,2],[-1,0,1]]). -/
def sobelX (g : Plane) (i j : ℕ) : ℤ :=
  (at2 g ((i : ℤ) - 1) ((j : ℤ) + 1) + 2 * at2 g i ((j : ℤ) + 1)
      + at2 g ((i : ℤ) + 1) ((j : ℤ) + 1))
    - (at2 g ((i : ℤ) - 1) ((j : ℤ) - 1) + 2 * at2 g i ((j : ℤ) - 1)
      + at2 g ((i : ℤ) + 1) ((j : ℤ) - 1))

/-- The vertical Sobel derivative `cv2.Sobel(gray, CV_64F, 0, 1, ksize=3)`
at one pixel. -/
def sobelY (g : Plane) (i j : ℕ) : ℤ :=
  (at2 g ((i : ℤ) + 1) ((j : ℤ) - 1) + 2 * at2 g ((i : ℤ) + 1) j
      + at2 g ((i : ℤ) + 1) ((j : ℤ) + 1))
    - (at2 g ((i : ℤ) - 1) ((j : ℤ) - 1) + 2 * at2 g ((i : ℤ) - 1) j
      + at2 g ((i : ℤ) - 1) ((j : ℤ) + 1))

/-- `_calculate_roughness` (image_processor.py lines 122-132):
`np.mean(np.sqrt(sobel_x**2 + sobel_y**2)) / 255.0` over the gray plane. -/
noncomputable def texture_roughness (g : Plane) : ℝ :=
  (∑ i ∈ Finset.range g.h, ∑ j ∈ Finset.range g.w,
      Real.sqrt ((sobelX g i j : ℝ) ^ 2 + (sobelY g i j : ℝ) ^ 2))
    / (g.h * g.w) / 255

/-- `features['dark_pixel_ratio']` (image_processor.py lines 105-108):
the fraction of gray samples strictly below `0.3 * 255 = 76.5`. -/
def dark_pixel_ratio (g : Plane) : ℚ :=
  (((grid g.h g.w).filter fun ij => (g.pix ij.1 ij.2 : ℚ) < 765 / 10).card : ℚ)
    / (g.h * g.w)

/-- `features['edge_density']` (image_processor.py lines 94-96): the fraction
of samples the Canny detector marked as edges; the edge map itself is the
output of the external `cv2.Canny` call, modelled as an arbitrary boolean
grid of the same shape. -/
def edge_density (h w : ℕ) (edges : ℕ → ℕ → Bool) : ℚ :=
  (((grid h w).filter fun ij => edges ij.1 ij.2).card : ℚ) / (h * w)

/-- `skin_coverage` (image_processor.py lines 40-43): the percentage of mask
samples that are non-zero; the mask is the output of the external
`cv2.inRange` call, modelled as an arbitrary boolean grid. -/
def skin_coverage (h w : ℕ) (mask : ℕ → ℕ → Bool) : ℚ :=
  (((grid h w).filter fun ij => mask ij.1 ij.2).card : ℚ) / (h * w) * 100

/-- `features['redness_index']` (image_processor.py lines 110-115): the mean
over all samples of `(R - G) / (R + G + 1e-6)`, taking the flattened list of
(R, G, B) samples of the RGB image. -/
def redness_index (px : List (ℕ × ℕ × ℕ)) : ℚ :=
  (px.map fun p => ((p.1 : ℚ) - p.2.1) / ((p.1 : ℚ) + p.2.1 + 1 / 1000000)).sum
    / px.length

/-- `features['yellowness']` (image_processor.py lines 101-103):
`np.mean(b_channel[b_channel > 128])` over the Lab b plane.  NumPy's mean of
an empty selection is NaN (with a RuntimeWarning, not an exception). -/
def yellowness (labB : Plane) : PyVal :=
  if ((grid labB.h labB.w).filter fun ij => 128 < labB.pix ij.1 ij.2).card = 0 then .nan
  else
    .val ((∑ ij ∈ (grid labB.h labB.w).filter fun ij => 128 < labB.pix ij.1 ij.2,
        (labB.pix ij.1 ij.2 : ℚ))
      / (((grid labB.h labB.w).filter fun ij => 128 < labB.pix ij.1 ij.2).card : ℚ))

/-! ## Recommendation engine (recommendation_engine.py) -/

/-- One entry of `RecommendationEngine.condition_recommendations`: the three
per-condition recommendation lists. -/
structure RecLists where
  lifestyle : List String
  diet : List String
  medical : List String

/-- `RecommendationEngine.condition_recommendations`
(recommendation_engine.py lines 6-129), transcribed verbatim. -/
def condition_recommendations : ConditionId → RecLists
  | .acanthosis =>
      { lifestyle :=
          [ "Maintain regular exercise routine (30+ minutes daily) to improve insulin sensitivity",
            "Prioritize 7-9 hours of quality sleep to support metabolic health",
            "Practice stress management techniques like meditation or yoga",
            "Monitor weight and work towards healthy BMI if needed" ],
        diet :=
          [ "Reduce refined sugar and simple carbohydrate intake",
            "Focus on low-glycemic index foods (vegetables, whole grains, lean proteins)",
            "Increase fiber intake with fruits, vegetables, and legumes",
            "Consider intermittent fasting under medical supervision",
            "Limit processed foods and sugary beverages" ],
        medical :=
          [ "Schedule blood glucose and HbA1c testing",
            "Consider consultation with an endocrinologist",
            "Discuss insulin resistance screening with your physician",
            "Monitor blood pressure regularly" ] }
  | .xanthelasma =>
      { lifestyle :=
          [ "Engage in regular cardiovascular exercise",
            "Quit smoking if applicable (smoking worsens lipid profiles)",
            "Maintain healthy weight through balanced diet and exercise",
            "Limit alcohol consumption" ],
        diet :=
          [ "Adopt a heart-healthy diet rich in omega-3 fatty acids",
            "Increase soluble fiber intake (oats, beans, apples)",
            "Choose lean proteins and limit saturated fats",
            "Include nuts, seeds, and olive oil for healthy fats",
            "Reduce trans fats and processed foods" ],
        medical :=
          [ "Schedule comprehensive lipid panel testing",
            "Consider cardiology consultation for cardiovascular risk assessment",
            "Discuss statin therapy if appropriate",
            "Monitor blood pressure and diabetes risk factors" ] }
  | .dry =>
      { lifestyle :=
          [ "Increase daily water intake (8-10 glasses per day)",
            "Use a humidifier in dry environments",
            "Take shorter, lukewarm showers to preserve skin oils",
            "Apply moisturizer immediately after bathing",
            "Protect skin from harsh weather conditions" ],
        diet :=
          [ "Consume foods rich in omega-3 fatty acids (fish, walnuts, flaxseed)",
            "Include antioxidant-rich fruits and vegetables",
            "Consider vitamin E and vitamin C supplementation",
            "Limit caffeine and alcohol which can contribute to dehydration" ],
        medical :=
          [ "Consider dermatologist consultation for persistent dryness",
            "Rule out underlying conditions like thyroid disorders",
            "Discuss prescription moisturizers or treatments if needed" ] }
  | .inflammatory =>
      { lifestyle :=
          [ "Identify and avoid potential allergens or irritants",
            "Use gentle, fragrance-free skincare products",
            "Wear breathable, natural fiber clothing",
            "Manage stress levels through relaxation techniques",
            "Keep affected areas clean and dry" ],
        diet :=
          [ "Consider an anti-inflammatory diet rich in omega-3s",
            "Identify potential food triggers (dairy, gluten, nuts)",
            "Increase intake of anti-inflammatory foods (turmeric, ginger, leafy greens)",
            "Stay well-hydrated" ],
        medical :=
          [ "Schedule dermatologist appointment for proper diagnosis",
            "Consider allergy testing if recurrent",
            "Discuss topical or oral anti-inflammatory treatments",
            "Rule out autoimmune conditions if widespread" ] }
  | .seborrheic =>
      { lifestyle :=
          [ "Use gentle, anti-fungal shampoos and cleansers",
            "Manage stress levels effectively",
            "Avoid harsh skincare products with alcohol",
            "Maintain good hygiene without over-washing" ],
        diet :=
          [ "Limit sugar and refined carbohydrates",
            "Include probiotics and fermented foods",
            "Consider zinc and B-vitamin supplementation",
            "Reduce inflammatory foods" ],
        medical :=
          [ "Consult dermatologist for antifungal treatments",
            "Discuss medicated shampoos or topical treatments",
            "Rule out underlying immune system issues" ] }
  | .ageSpots =>
      { lifestyle :=
          [ "Apply broad-spectrum SPF 30+ sunscreen daily",
            "Wear protective clothing and wide-brimmed hats",
            "Seek shade during peak sun hours (10am-4pm)",
            "Use antioxidant-rich skincare products" ],
        diet :=
          [ "Consume antioxidant-rich foods (berries, dark leafy greens)",
            "Include vitamin C and E rich foods",
            "Consider lycopene-rich foods (tomatoes, watermelon)",
            "Stay well-hydrated for skin health" ],
        medical :=
          [ "Schedule regular dermatological skin checks",
            "Discuss treatment options (chemical peels, laser therapy)",
            "Monitor for changes in existing spots",
            "Consider prescription retinoids for prevention" ] }

/-- `RecommendationEngine.general_recommendations`
(recommendation_engine.py lines 132-151), transcribed verbatim. -/
def general_recommendations : RecLists :=
  { lifestyle :=
      [ "Maintain consistent sleep schedule of 7-9 hours nightly",
        "Practice regular stress management techniques",
        "Stay physically active with regular exercise",
        "Avoid smoking and limit alcohol consumption" ],
    diet :=
      [ "Follow a balanced, nutrient-rich diet",
        "Stay adequately hydrated throughout the day",
        "Limit processed foods and excess sugar",
        "Include variety of colorful fruits and vegetables" ],
    medical :=
      [ "Schedule regular check-ups with your primary care physician",
        "Keep a skin health diary to track changes",
        "Follow up on any concerning or persistent symptoms",
        "Maintain updated health records and medication lists" ] }

/-- The action-item sentences produced by `_generate_action_items`
(recommendation_engine.py lines 212-242).  Each constructor stands for one of
the six distinct sentence templates; the three templates that interpolate the
condition's confidence carry it as an argument, so two sentences are equal in
this model exactly when the corresponding Python strings are equal. -/
inductive ActionItem where
  | insulin (confidence : PyVal)
  | cholesterol (confidence : PyVal)
  | inflammatorySentence (confidence : PyVal)
  | sunDamage
  | closerPhotos
  | closerDiscuss
deriving DecidableEq

/-- The `if`/`elif` chain of `_generate_action_items` (lines 220-235).  The
substring tests on the condition name (`'Acanthosis Nigricans' in condition`
and so on) each match exactly one of the six fixed dictionary keys, so they
are modelled by matching on the condition identity. -/
def rule_sentence (c : ConditionId) (confidence : PyVal) (risk : String) :
    Option ActionItem :=
  match c with
  | .acanthosis => some (.insulin confidence)
  | .xanthelasma => some (.cholesterol confidence)
  | .inflammatory => if risk = "High" then some (.inflammatorySentence confidence) else none
  | .ageSpots => if pyGe confidence (.val 70) then some ActionItem.sunDamage else none
  | _ => none

/-- Comparison used to model `list.sort(key=lambda x: x[1], reverse=True)`:
a stable descending sort by confidence.  `List.insertionSort` with this
relation inserts each element before the first element it is `≥`, which
reproduces CPython's stable descending order for finite keys. -/
def confGe (a b : ConditionId × PyVal × String) : Prop := pyGe a.2.1 b.2.1 = true

instance : DecidableRel confGe := fun a b => by
  unfold confGe
  infer_instance

/-- `_generate_action_items` (recommendation_engine.py lines 212-242): sort
the high-confidence list by descending confidence, emit at most one sentence
per entry through the rule chain, and append the two closing items whenever
the incoming high-confidence list is non-empty. -/
def generate_action_items (hi : List (ConditionId × PyVal × String)) :
    List ActionItem :=
  ((List.insertionSort confGe hi).filterMap fun e => rule_sentence e.1 e.2.1 e.2.2)
    ++ (if hi.isEmpty then [] else [ActionItem.closerPhotos, ActionItem.closerDiscuss])

/-- The accumulator of the loop in `generate_recommendations`
(recommendation_engine.py lines 163-196): three Python sets and the
`high_confidence_conditions` list. -/
structure RecState where
  lifestyle : Finset String
  diet : Finset String
  medical : Finset String
  hi : List (ConditionId × PyVal × String)

/-- Python `for rec in l: s.add(rec)` over a string set. -/
def addList (s : Finset String) (l : List String) : Finset String :=
  l.foldl (fun acc r => insert r acc) s

/-- One iteration of the loop of `generate_recommendations` (lines 173-196). -/
def recsStep (table : ConditionId → ConditionResult) (st : RecState)
    (c : ConditionId) : RecState :=
  if pyGe (table c).confidence (.val 40) then
    let cr := condition_recommendations c
    let st1 : RecState :=
      { st with
        lifestyle := addList st.lifestyle (cr.lifestyle.take 2),
        diet := addList st.diet (cr.diet.take 3),
        medical := addList st.medical cr.medical }
    if pyGe (table c).confidence (.val 60) then
      { st1 with hi := st1.hi ++ [(c, (table c).confidence, (table c).risk_level)] }
    else st1
  else st

/-- The value returned by `generate_recommendations`: Python sets are
modelled as finite string sets (set iteration order is not observable in the
claims under verification), the action items as an ordered list. -/
structure Recommendations where
  lifestyle : Finset String
  diet : Finset String
  medical : Finset String
  action_items : List ActionItem

/-- `generate_recommendations` (recommendation_engine.py lines 153-210),
taking the analyzer's result table keyed by the six condition identities. -/
def generate_recommendations (table : ConditionId → ConditionResult) :
    Recommendations :=
  let st := allConditions.foldl (recsStep table) ⟨∅, ∅, ∅, []⟩
  { lifestyle := addList st.lifestyle (general_recommendations.lifestyle.take 2),
    diet := addList st.diet (general_recommendations.diet.take 2),
    medical := addList st.medical (general_recommendations.medical.take 2),
    action_items := generate_action_items st.hi }

/-- Reference rendering of §4.3 of the specification, amended: the list of
high-confidence conditions is those with confidence at least 60; at most one
sentence per matching special rule, sorted by descending confidence; the two
fixed closing items are appended whenever the high-confidence list is
non-empty. -/
def action_items_spec (table : ConditionId → ConditionResult) : List ActionItem :=
  let hi := (allConditions.filter fun c => pyGe (table c).confidence (.val 60)).map
    fun c => (c, (table c).confidence, (table c).risk_level)
  ((List.insertionSort confGe hi).filterMap fun e => rule_sentence e.1 e.2.1 e.2.2)
    ++ (if hi.isEmpty then [] else [ActionItem.closerPhotos, ActionItem.closerDiscuss])

/-- Reference rendering of the claim exactly as stated: the two fixed closing
action items are appended if and only if at least one condition-specific
action item was generated. -/
def action_items_claimed (table : ConditionId → ConditionResult) : List ActionItem :=
  let hi := (allConditions.filter fun c => pyGe (table c).confidence (.val 60)).map
    fun c => (c, (table c).confidence, (table c).risk_level)
  let specific :=
    (List.insertionSort confGe hi).filterMap fun e => rule_sentence e.1 e.2.1 e.2.2
  specific ++ (if specific.isEmpty then [] else [ActionItem.closerPhotos, ActionItem.closerDiscuss])

/-! ## Application shell (app.py) -/

/-- The stages of `main` (app.py lines 67-126) that touch the uploaded image,
in program order. -/
inductive PipelineStep where
  | rejectOversize | decodeImage | preprocessStep | extractStep | analyzeStep | recommendStep
deriving DecidableEq

/-- The 5 MiB upload cap of `main` (app.py line 70). -/
def MAX_UPLOAD_BYTES : ℕ := 5 * 1024 * 1024

/-- The control flow of `main` (app.py lines 67-126) as the sequence of
stages executed for an upload of the given encoded byte size: an oversized
file is rejected with an error message and the function returns before
`Image.open` (the decode) and all later stages; otherwise the four pipeline
stages run after the decode. -/
def upload_pipeline (fileSize : ℕ) : List PipelineStep :=
  if MAX_UPLOAD_BYTES < fileSize then [.rejectOversize]
  else [.decodeImage, .preprocessStep, .extractStep, .analyzeStep, .recommendStep]

/-- Order of the three risk tiers, `Low < Medium < High`. -/
def riskRank : String → ℕ
  | "Medium" => 1
  | "High" => 2
  | _ => 0

/-- Feature dictionary of the C1 counterexample: `dark_pixel_ratio = 0.1475`,
every other key absent. -/
def fsC1 : FeatureSet :=
  fun n => if n = "dark_pixel_ratio" then some (.val (59 / 400)) else none

/-- Noise stream of the C1 counterexample: every normal draw returns 0.0096
(0.19 standard deviations, well inside the support of N(0, 0.05)). -/
def streamC1 : ℕ → ℚ := fun _ => 6 / 625

/-- The feature dictionary of the C8 determinism statement: every key absent,
so every condition's probability is its base probability plus noise. -/
def fsEmpty : FeatureSet := fun _ => none

/-- Noise stream of the C8 existence part: the first six draws (consumed by
the first analysis call) return 0, all later draws return 0.5. -/
def streamC8 : ℕ → ℚ := fun n => if n < 6 then 0 else 1 / 2

/-! ## Claim C5: the three normalization rules, spec-side reference -/

/-- The specification's "higher-is-stronger" feature class (§4.2 step 1):
normalized score `min(value / threshold, 1.0)`. -/
def spec_higher : List String :=
  ["dark_pixel_ratio", "edge_density", "texture_roughness", "redness_index",
    "contrast", "color_variance"]

/-- The specification's "above-threshold" feature class (§4.2 step 1):
normalized score `clamp((value - threshold) / (255 - threshold), 0, 1)`. -/
def spec_above : List String := ["brightness", "yellowness"]

/-- The specification's normalized score for one present feature, written
from the spec's three rules (a name outside both classes has no spec rule;
no model feature falls there, see `c5_normalization_rules`). -/
def spec_norm (name : String) (v t : ℚ) : ℚ :=
  if name ∈ spec_higher then min (v / t) 1
  else if name ∈ spec_above then max 0 (min ((v - t) / (255 - t)) 1)
  else 0

/-- The specification's weighted score: the sum over all (feature, weight,
threshold) triples of normalized score times weight, a missing feature
contributing 0. -/
def spec_weighted (fs : FeatureSet) (m : ConditionModel) : ℚ :=
  ((m.features.zip (m.weights.zip m.thresholds)).map fun nwt =>
    (match fs nwt.1 with
      | some (.val q) => spec_norm nwt.1 q nwt.2.2
      | _ => 0) * nwt.2.1).sum

/-- Recognizer for the insulin action-item template. -/
def isInsulinItem : ActionItem → Bool
  | .insulin _ => true
  | _ => false

/-- Recognizer for the cholesterol action-item template. -/
def isCholesterolItem : ActionItem → Bool
  | .cholesterol _ => true
  | _ => false

/-- Recognizer for the inflammatory action-item template. -/
def isInflammatoryItem : ActionItem → Bool
  | .inflammatorySentence _ => true
  | _ => false

/-- Recognizer for the sun-damage action-item template. -/
def isSunDamageItem : ActionItem → Bool
  | .sunDamage => true
  | _ => false

/-- The analysis table of the C6 counterexample: Dry/Dehydrated Skin at
confidence 80 (risk High), every other condition at confidence 0. -/
def tableC6 : ConditionId → ConditionResult := fun c =>
  match c with
  | .dry => { confidence := .val 80, risk_level := "High", description := "",
              detected_features := [] }
  | _ => { confidence := .val 0, risk_level := "Low", description := "",
           detected_features := [] }

/-- The gray plane of the C2 counterexample: a 2 x 4 plane whose left half is
black and right half white.  It is a valid 8-bit plane, and its mean Sobel
magnitude is 510, so `texture_roughness` is 510 / 255 = 2. -/
def stripeGray : Plane := ⟨2, 4, fun _ j => if j < 2 then 0 else 255⟩

/-- The Lab b plane of an all-black (or any neutral gray) 224 x 224 image:
every b sample is the neutral midpoint 128. -/
def blackLabB : Plane := ⟨224, 224, fun _ _ => 128⟩

/-! ## Theorems -/

@[simp] theorem pyAdd_val (a b : ℚ) : pyAdd (.val a) (.val b) = .val (a + b) := rfl

@[simp] theorem pySub_val (a b : ℚ) : pySub (.val a) (.val b) = .val (a - b) := rfl

@[simp] theorem pyMul_val (a b : ℚ) : pyMul (.val a) (.val b) = .val (a * b) := rfl

theorem pyDiv_val (a : ℚ) {b : ℚ} (hb : b ≠ 0) :
    pyDiv (.val a) (.val b) = .val (a / b) := by
  simp [pyDiv, hb]

theorem rat_floor_eq (q : ℚ) : q.floor = ⌊q⌋ := by
  rw [Rat.floor_def', Rat.floor_def]

theorem rhe_nonneg {q : ℚ} (h : 0 ≤ q) : 0 ≤ rhe q := by
  have hf : (0 : ℤ) ≤ q.floor := by
    rw [rat_floor_eq]
    exact Int.floor_nonneg.mpr h
  unfold rhe
  split
  · exact hf
  · split
    · omega
    · split
      · exact hf
      · omega

theorem rhe_le {q : ℚ} {n : ℤ} (h : q ≤ n) : rhe q ≤ n := by
  have hf : q.floor ≤ n := by
    rw [rat_floor_eq]
    have := Int.floor_le_floor h
    simpa using this
  have hfq : (q.floor : ℚ) ≤ q := by
    rw [rat_floor_eq]
    exact Int.floor_le q
  unfold rhe
  split
  · exact hf
  · rename_i h1
    have hne : q.floor ≠ n := by
      intro he
      have : q - q.floor ≤ 0 := by
        rw [he]
        exact sub_nonpos.mpr h
      linarith [not_lt.mp h1]
    split
    · omega
    · split
      · exact hf
      · omega

theorem rhe_eq_of_lt_half {q : ℚ} {f : ℤ} (h1 : (f : ℚ) ≤ q) (h2 : q - f < 1 / 2) :
    rhe q = f := by
  have hff : q.floor = f := by
    rw [rat_floor_eq]
    exact Int.floor_eq_iff.mpr ⟨h1, by linarith⟩
  unfold rhe
  rw [hff, if_pos h2]

theorem rhe_eq_of_half_lt {q : ℚ} {f : ℤ} (h1 : (f : ℚ) ≤ q) (h2 : 1 / 2 < q - f)
    (h3 : q < f + 1) : rhe q = f + 1 := by
  have hff : q.floor = f := by
    rw [rat_floor_eq]
    exact Int.floor_eq_iff.mpr ⟨h1, by linarith⟩
  unfold rhe
  rw [hff, if_neg (by linarith), if_pos h2]

/-! ## Shared lemmas about the scorer -/

/-- The clamp `max(0, min(base + weighted + noise, 0.95))` always yields a
finite value in [0, 0.95], even when the weighted sum is NaN (CPython's
two-argument `max`/`min` return the first argument on an incomparable NaN,
and `max(0, NaN) = 0`). -/
theorem calc_prob_val (fs : FeatureSet) (m : ConditionModel) (noise : ℚ) :
    ∃ q : ℚ, calculate_condition_probability fs m noise = .val q ∧
      0 ≤ q ∧ q ≤ 95 / 100 := by
  unfold calculate_condition_probability
  cases hx : pyAdd (pyAdd (.val m.base_probability) (weightedScore fs m)) (.val noise) with
  | nan =>
      refine ⟨0, ?_, le_refl 0, by norm_num⟩
      simp [pyMin, pyMax, pyLt]
  | val a =>
      refine ⟨max 0 (min a (95 / 100)), ?_, le_max_left _ _, ?_⟩
      · simp
      · exact max_le (by norm_num) (min_le_right _ _)

/-- Claim C4: for every feature set, every confidence emitted by the
condition scorer is within [0, 95] before display rounding and within
[0, 95] after rounding to one decimal place, because
`base_probability + weighted_sum + noise` is clamped to [0, 0.95] before
the multiplication by 100 (skin_analyzer.py lines 108-115 and 69-74). -/
theorem c4_confidence_bounds (fs : FeatureSet) (m : ConditionModel) (noise : ℚ) :
    (∃ q : ℚ, calculate_condition_probability fs m noise = .val q ∧
        0 ≤ q * 100 ∧ q * 100 ≤ 95) ∧
    (∃ r : ℚ, pyRound1 (pyMul (calculate_condition_probability fs m noise) (.val 100))
        = .val r ∧ 0 ≤ r ∧ r ≤ 95) := by
  obtain ⟨q, hq, h0, h95⟩ := calc_prob_val fs m noise
  constructor
  · exact ⟨q, hq, by positivity, by linarith⟩
  · refine ⟨(rhe (q * 100 * 10) : ℚ) / 10, ?_, ?_, ?_⟩
    · rw [hq, pyMul_val, pyRound1_val]
    · have := rhe_nonneg (q := q * 100 * 10) (by positivity)
      have : (0 : ℚ) ≤ (rhe (q * 100 * 10) : ℚ) := by exact_mod_cast this
      linarith
    · have hle : q * 100 * 10 ≤ ((950 : ℤ) : ℚ) := by push_cast; linarith
      have := rhe_le hle
      have hc : ((rhe (q * 100 * 10) : ℤ) : ℚ) ≤ 950 := by exact_mod_cast this
      linarith

/-- Claim C1 (amended): `_determine_risk_level` is a deterministic, monotonic
function of the PRE-ROUNDING confidence percentage (the clamped probability
times 100) with inclusive lower bounds: at least 70 yields High, at least 40
and below 70 yields Medium, below 40 yields Low.  In particular a pre-rounding
percentage of 69.9 yields Medium, 70.0 High, 39.9 Low, 40.0 Medium.  The
displayed confidence is rounded to one decimal only afterwards, so it can show
a boundary value (for example 70.0) while the tier was decided by a
pre-rounding percentage below the boundary. -/
theorem c1_risk_tier_of_raw_confidence (p q : ℚ) :
    (determine_risk_level (.val p) = "High" ↔ 70 ≤ p * 100) ∧
    (determine_risk_level (.val p) = "Medium" ↔ 40 ≤ p * 100 ∧ p * 100 < 70) ∧
    (determine_risk_level (.val p) = "Low" ↔ p * 100 < 40) ∧
    (p ≤ q →
      riskRank (determine_risk_level (.val p)) ≤ riskRank (determine_risk_level (.val q))) := by
  have hcase : ∀ r : ℚ,
      determine_risk_level (.val r) =
        if 70 ≤ r * 100 then "High" else if 40 ≤ r * 100 then "Medium" else "Low" := by
    intro r
    by_cases h70 : (70 : ℚ) ≤ r * 100 <;> by_cases h40 : (40 : ℚ) ≤ r * 100 <;>
      simp [determine_risk_level, h70, h40]
  refine ⟨?_, ?_, ?_, ?_⟩
  · rw [hcase]
    split_ifs with h70 h40
    · exact iff_of_true rfl h70
    · exact iff_of_false (by decide) h70
    · exact iff_of_false (by decide) h70
  · rw [hcase]
    split_ifs with h70 h40
    · refine iff_of_false (by decide) ?_
      rintro ⟨-, h2⟩
      linarith
    · exact iff_of_true rfl ⟨h40, not_le.mp h70⟩
    · refine iff_of_false (by decide) ?_
      rintro ⟨h1, -⟩
      exact h40 h1
  · rw [hcase]
    split_ifs with h70 h40
    · refine iff_of_false (by decide) ?_
      intro h
      linarith
    · refine iff_of_false (by decide) ?_
      intro h
      linarith
    · exact iff_of_true rfl (not_le.mp h40)
  · intro hpq
    rw [hcase, hcase]
    split_ifs <;> simp_all [riskRank] <;> linarith

/-- Witness for the amended claim C1 at a concrete input: monotonicity of the
risk tier at probabilities 0.5 and 0.75. -/
theorem c1_witness :
    riskRank (determine_risk_level (.val (1 / 2)))
      ≤ riskRank (determine_risk_level (.val (3 / 4))) :=
  (c1_risk_tier_of_raw_confidence (1 / 2) (3 / 4)).2.2.2 (by norm_num)

/-- Counterexample to claim C1 as stated: for the feature set with
`dark_pixel_ratio = 0.1475` and noise 0.0096, the first emitted analysis
result (Acanthosis Nigricans) has clamped probability 0.6996, so its REPORTED
confidence rounds to exactly 70.0 while its risk tier is "Medium", not "High";
the risk tier is therefore not the stated function of the emitted confidence. -/
theorem c1_counterexample :
    ((analyze_skin_conditions fsC1 (seedInit streamC1)).1.map
        fun p => (p.2.confidence, p.2.risk_level)).head? =
      some (.val 70, "Medium") := by
  have hws : weightedScore fsC1 (conditionModel .acanthosis) = .val (59 / 100) := by
    simp only [weightedScore, featureScores, conditionModel]
    simp +decide [fsC1, normScore, higher_is_stronger, above_threshold]
    norm_num [pyDiv, min_def]
  have hp : calculate_condition_probability fsC1 (conditionModel .acanthosis) (6 / 625)
      = .val (1749 / 2500) := by
    rw [calculate_condition_probability, hws]
    norm_num [conditionModel, min_def, max_def]
  have hrhe : rhe ((3498 : ℚ) / 5) = 700 := by
    have := rhe_eq_of_half_lt (q := 3498 / 5) (f := 699) (by norm_num) (by norm_num)
      (by norm_num)
    simpa using this
  simp only [analyze_skin_conditions, allConditions, analyzeList, draw, seedInit,
    streamC1, mkResult, List.map_cons, List.head?_cons]
  rw [hp]
  simp only [Option.some.injEq, Prod.mk.injEq]
  constructor
  · rw [pyMul_val, pyRound1_val]
    norm_num [hrhe]
  · norm_num [determine_risk_level, decide_eq_true_eq]

theorem analyzeList_map_fst (fs : FeatureSet) :
    ∀ (l : List ConditionId) (s : RngState), ((analyzeList fs l s).1.map Prod.fst) = l := by
  intro l
  induction l with
  | nil => intro s; rfl
  | cons c cs ih =>
      intro s
      simp [analyzeList, ih]

theorem analyzeList_mem (fs : FeatureSet) :
    ∀ (l : List ConditionId) (s : RngState) (p : ConditionId × ConditionResult),
      p ∈ (analyzeList fs l s).1 → ∃ (c : ConditionId) (n : ℚ), p = (c, mkResult fs c n) := by
  intro l
  induction l with
  | nil => intro s p hp; simp [analyzeList] at hp
  | cons c cs ih =>
      intro s p hp
      simp only [analyzeList, List.mem_cons] at hp
      rcases hp with h | h
      · exact ⟨c, (draw s).1, h⟩
      · exact ih _ p h

theorem analyzeList_snd (fs : FeatureSet) :
    ∀ (l : List ConditionId) (s : RngState),
      (analyzeList fs l s).2 = ⟨s.stream, s.idx + l.length⟩ := by
  intro l
  induction l with
  | nil => intro s; rfl
  | cons c cs ih =>
      intro s
      simp only [analyzeList, draw, ih, List.length_cons]
      congr 1
      omega

/-- Claim C10: for every input feature mapping (and random state),
`analyze_skin_conditions` returns one entry per fixed condition identity, in
dictionary order; each entry carries a confidence that is a finite multiple of
1/10 (rounded to one decimal), a risk level drawn from {Low, Medium, High},
the non-empty static description of its condition, and detected features whose
keys all come from the condition's model feature list and whose values are the
corresponding input features rounded to 3 decimals. -/
theorem c10_result_shape (fs : FeatureSet) (s : RngState) :
    ((analyze_skin_conditions fs s).1.map Prod.fst = allConditions) ∧
    (∀ p ∈ (analyze_skin_conditions fs s).1,
      (∃ z : ℤ, p.2.confidence = .val ((z : ℚ) / 10)) ∧
      (p.2.risk_level = "Low" ∨ p.2.risk_level = "Medium" ∨ p.2.risk_level = "High") ∧
      p.2.description = get_condition_description p.1 ∧
      p.2.description ≠ "" ∧
      (∀ pr ∈ p.2.detected_features,
        pr.1 ∈ (conditionModel p.1).features ∧
        ∃ v, fs pr.1 = some v ∧ pr.2 = pyRound3 v)) := by
  constructor
  · exact analyzeList_map_fst fs allConditions s
  · intro p hp
    obtain ⟨c, n, rfl⟩ := analyzeList_mem fs allConditions s p hp
    refine ⟨?_, ?_, rfl, ?_, ?_⟩
    · obtain ⟨q, hq, -, -⟩ := calc_prob_val fs (conditionModel c) n
      exact ⟨rhe (q * 100 * 10), by simp [mkResult, hq]⟩
    · simp only [mkResult]
      unfold determine_risk_level
      split_ifs <;> simp
    · cases c <;> simp [mkResult, get_condition_description]
    · intro pr hpr
      simp only [mkResult, get_relevant_features, List.mem_filterMap] at hpr
      obtain ⟨name, hname, hmatch⟩ := hpr
      cases hv : fs name with
      | none => rw [hv] at hmatch; simp at hmatch
      | some v =>
          rw [hv] at hmatch
          simp only [Option.some.injEq] at hmatch
          subst hmatch
          exact ⟨hname, v, hv, rfl⟩

/-- Witness for claim C10 at a concrete input: the empty feature dictionary
and the zero noise stream produce exactly the six fixed condition keys. -/
theorem c10_witness :
    ((analyze_skin_conditions (fun _ => none) ⟨fun _ => 0, 0⟩).1.map Prod.fst
      = allConditions) :=
  (c10_result_shape (fun _ => none) ⟨fun _ => 0, 0⟩).1

theorem weightedScore_fsEmpty (c : ConditionId) :
    weightedScore fsEmpty (conditionModel c) = .val 0 := by
  cases c <;> norm_num [weightedScore, featureScores, conditionModel, fsEmpty]

theorem calc_prob_fsEmpty_acanthosis (n : ℚ) (h0 : 0 ≤ n) (h1 : n ≤ 1 / 2) :
    calculate_condition_probability fsEmpty (conditionModel .acanthosis) n
      = .val (1 / 10 + n) := by
  rw [calculate_condition_probability, weightedScore_fsEmpty]
  have hbase : (conditionModel ConditionId.acanthosis).base_probability = 1 / 10 := rfl
  rw [hbase]
  simp only [pyAdd_val, pyMin_val, pyMax_val]
  congr 1
  rw [min_eq_left (by linarith), max_eq_right (by linarith)]
  ring

/-- Claim C8: re-running the condition scorer on the same feature set with the
random source re-initialized to the same fixed seed yields identical emitted
confidence lists (the result is a function of the feature set and the seeded
state alone); and a second call within the same process session, which
continues from the advanced stream position instead of re-seeding, is NOT
guaranteed to reproduce the first call's confidences — witnessed by a stream
whose first six draws differ from the next six. -/
theorem c8_seed_determinism :
    (∀ (stream : ℕ → ℚ) (fs : FeatureSet) (s₁ s₂ : RngState),
        s₁ = seedInit stream → s₂ = seedInit stream →
        (analyze_skin_conditions fs s₁).1.map (fun p => p.2.confidence) =
          (analyze_skin_conditions fs s₂).1.map (fun p => p.2.confidence)) ∧
    (∃ (stream : ℕ → ℚ) (fs : FeatureSet),
        (analyze_skin_conditions fs (seedInit stream)).1.map (fun p => p.2.confidence) ≠
          (analyze_skin_conditions fs
              ((analyze_skin_conditions fs (seedInit stream)).2)).1.map
            (fun p => p.2.confidence)) := by
  constructor
  · intro stream fs s₁ s₂ h₁ h₂
    rw [h₁, h₂]
  · refine ⟨streamC8, fsEmpty, ?_⟩
    intro heq
    have hs2 : (analyze_skin_conditions fsEmpty (seedInit streamC8)).2
        = ⟨streamC8, 6⟩ := by
      rw [analyze_skin_conditions, analyzeList_snd]
      rfl
    have hhead := congrArg List.head? heq
    rw [hs2] at hhead
    have hc1 : calculate_condition_probability fsEmpty (conditionModel .acanthosis)
        (streamC8 0) = .val (1 / 10) := by
      have : streamC8 0 = 0 := rfl
      rw [this, calc_prob_fsEmpty_acanthosis 0 le_rfl (by norm_num)]
      norm_num
    have hc2 : calculate_condition_probability fsEmpty (conditionModel .acanthosis)
        (streamC8 6) = .val (6 / 10) := by
      have : streamC8 6 = 1 / 2 := rfl
      rw [this, calc_prob_fsEmpty_acanthosis (1 / 2) (by norm_num) le_rfl]
      norm_num
    simp only [analyze_skin_conditions, allConditions, analyzeList, draw, seedInit,
      mkResult, List.map_cons, List.head?_cons, Option.some.injEq] at hhead
    rw [hc1, hc2] at hhead
    have hr1 : rhe ((1 / 10 * 100 : ℚ) * 10) = 100 := by
      have h : ((1 / 10 * 100 : ℚ) * 10) = 100 := by norm_num
      rw [h]
      exact rhe_eq_of_lt_half (by norm_num) (by norm_num)
    have hr2 : rhe ((6 / 10 * 100 : ℚ) * 10) = 600 := by
      have h : ((6 / 10 * 100 : ℚ) * 10) = 600 := by norm_num
      rw [h]
      exact rhe_eq_of_lt_half (by norm_num) (by norm_num)
    simp only [pyMul_val, pyRound1_val, hr1, hr2, PyVal.val.injEq] at hhead
    norm_num at hhead

/-- Witness for claim C8 at a concrete input: two runs both re-seeded to the
zero stream emit identical confidence lists. -/
theorem c8_witness :
    (analyze_skin_conditions fsEmpty (seedInit fun _ => 0)).1.map
        (fun p => p.2.confidence) =
      (analyze_skin_conditions fsEmpty (seedInit fun _ => 0)).1.map
        (fun p => p.2.confidence) :=
  c8_seed_determinism.1 (fun _ => 0) fsEmpty _ _ rfl rfl

/-- Claim C9: an upload whose encoded size exceeds the 5 MiB cap is rejected
before the decode and before every processing stage: the executed stage list
is exactly the rejection, and in particular contains neither the decode nor
the feature-extraction stage (app.py lines 67-81). -/
theorem c9_oversize_rejected (n : ℕ) (h : MAX_UPLOAD_BYTES < n) :
    upload_pipeline n = [.rejectOversize] ∧
    PipelineStep.decodeImage ∉ upload_pipeline n ∧
    PipelineStep.extractStep ∉ upload_pipeline n := by
  unfold upload_pipeline
  rw [if_pos h]
  refine ⟨rfl, ?_, ?_⟩ <;> simp

/-- Witness for claim C9 at a concrete input: a 6 MiB upload is rejected
without decode or extraction. -/
theorem c9_witness :
    upload_pipeline (6 * 1024 * 1024) = [.rejectOversize] ∧
    PipelineStep.decodeImage ∉ upload_pipeline (6 * 1024 * 1024) ∧
    PipelineStep.extractStep ∉ upload_pipeline (6 * 1024 * 1024) :=
  c9_oversize_rejected (6 * 1024 * 1024) (by norm_num [MAX_UPLOAD_BYTES])

theorem fs_fin_cases (fs : FeatureSet) (hfin : ∀ n v, fs n = some v → v ≠ PyVal.nan)
    (n : String) : fs n = none ∨ ∃ q : ℚ, fs n = some (.val q) := by
  cases hv : fs n with
  | none => exact Or.inl rfl
  | some v =>
      cases v with
      | nan => exact absurd rfl (hfin _ _ hv)
      | val q => exact Or.inr ⟨q, rfl⟩

set_option maxHeartbeats 1600000 in
/-- Claim C5: for every finite-valued feature set and every condition model,
the code's weighted score equals the specification's: each triple is
normalized by exactly one of the three fixed rules chosen by feature
identity (higher-is-stronger: `min(v/t, 1)`; above-threshold for brightness
and yellowness: `clamp((v-t)/(255-t), 0, 1)`; absent feature: 0), and the
weighted score is the sum of normalized score times weight over all triples.
Every feature of every model belongs to exactly one of the two name classes. -/
theorem c5_normalization_rules (fs : FeatureSet)
    (hfin : ∀ n v, fs n = some v → v ≠ PyVal.nan) (c : ConditionId) :
    weightedScore fs (conditionModel c) = .val (spec_weighted fs (conditionModel c)) ∧
    (∀ n ∈ (conditionModel c).features, n ∈ spec_higher ∨ n ∈ spec_above) ∧
    (∀ n ∈ spec_higher, n ∉ spec_above) := by
  refine ⟨?_, ?_, ?_⟩
  · cases c with
    | acanthosis =>
        rcases fs_fin_cases fs hfin "dark_pixel_ratio" with h1 | ⟨q1, h1⟩ <;>
        rcases fs_fin_cases fs hfin "contrast" with h2 | ⟨q2, h2⟩ <;>
        rcases fs_fin_cases fs hfin "texture_roughness" with h3 | ⟨q3, h3⟩
        all_goals
          simp only [weightedScore, featureScores, spec_weighted, conditionModel,
            List.zip_cons_cons, List.zip_nil_left, List.map_cons, List.map_nil,
            List.sum_cons, List.sum_nil, List.foldl_cons, List.foldl_nil]
          rw [h1, h2, h3]
          simp [normScore, spec_norm, higher_is_stronger, above_threshold,
            spec_higher, spec_above]
          try norm_num [pyDiv_val, PyVal.val.injEq]
          try ring_nf
    | xanthelasma =>
        rcases fs_fin_cases fs hfin "yellowness" with h1 | ⟨q1, h1⟩ <;>
        rcases fs_fin_cases fs hfin "brightness" with h2 | ⟨q2, h2⟩ <;>
        rcases fs_fin_cases fs hfin "color_variance" with h3 | ⟨q3, h3⟩
        all_goals
          simp only [weightedScore, featureScores, spec_weighted, conditionModel,
            List.zip_cons_cons, List.zip_nil_left, List.map_cons, List.map_nil,
            List.sum_cons, List.sum_nil, List.foldl_cons, List.foldl_nil]
          rw [h1, h2, h3]
          simp [normScore, spec_norm, higher_is_stronger, above_threshold,
            spec_higher, spec_above]
          try norm_num [pyDiv_val, PyVal.val.injEq]
          try ring_nf
    | dry =>
        rcases fs_fin_cases fs hfin "texture_roughness" with h1 | ⟨q1, h1⟩ <;>
        rcases fs_fin_cases fs hfin "contrast" with h2 | ⟨q2, h2⟩ <;>
        rcases fs_fin_cases fs hfin "edge_density" with h3 | ⟨q3, h3⟩
        all_goals
          simp only [weightedScore, featureScores, spec_weighted, conditionModel,
            List.zip_cons_cons, List.zip_nil_left, List.map_cons, List.map_nil,
            List.sum_cons, List.sum_nil, List.foldl_cons, List.foldl_nil]
          rw [h1, h2, h3]
          simp [normScore, spec_norm, higher_is_stronger, above_threshold,
            spec_higher, spec_above]
          try norm_num [pyDiv_val, PyVal.val.injEq]
          try ring_nf
    | inflammatory =>
        rcases fs_fin_cases fs hfin "redness_index" with h1 | ⟨q1, h1⟩ <;>
        rcases fs_fin_cases fs hfin "color_variance" with h2 | ⟨q2, h2⟩ <;>
        rcases fs_fin_cases fs hfin "edge_density" with h3 | ⟨q3, h3⟩
        all_goals
          simp only [weightedScore, featureScores, spec_weighted, conditionModel,
            List.zip_cons_cons, List.zip_nil_left, List.map_cons, List.map_nil,
            List.sum_cons, List.sum_nil, List.foldl_cons, List.foldl_nil]
          rw [h1, h2, h3]
          simp [normScore, spec_norm, higher_is_stronger, above_threshold,
            spec_higher, spec_above]
          try norm_num [pyDiv_val, PyVal.val.injEq]
          try ring_nf
    | seborrheic =>
        rcases fs_fin_cases fs hfin "redness_index" with h1 | ⟨q1, h1⟩ <;>
        rcases fs_fin_cases fs hfin "texture_roughness" with h2 | ⟨q2, h2⟩ <;>
        rcases fs_fin_cases fs hfin "yellowness" with h3 | ⟨q3, h3⟩
        all_goals
          simp only [weightedScore, featureScores, spec_weighted, conditionModel,
            List.zip_cons_cons, List.zip_nil_left, List.map_cons, List.map_nil,
            List.sum_cons, List.sum_nil, List.foldl_cons, List.foldl_nil]
          rw [h1, h2, h3]
          simp [normScore, spec_norm, higher_is_stronger, above_threshold,
            spec_higher, spec_above]
          try norm_num [pyDiv_val, PyVal.val.injEq]
          try ring_nf
    | ageSpots =>
        rcases fs_fin_cases fs hfin "dark_pixel_ratio" with h1 | ⟨q1, h1⟩ <;>
        rcases fs_fin_cases fs hfin "color_variance" with h2 | ⟨q2, h2⟩ <;>
        rcases fs_fin_cases fs hfin "brightness" with h3 | ⟨q3, h3⟩
        all_goals
          simp only [weightedScore, featureScores, spec_weighted, conditionModel,
            List.zip_cons_cons, List.zip_nil_left, List.map_cons, List.map_nil,
            List.sum_cons, List.sum_nil, List.foldl_cons, List.foldl_nil]
          rw [h1, h2, h3]
          simp [normScore, spec_norm, higher_is_stronger, above_threshold,
            spec_higher, spec_above]
          try norm_num [pyDiv_val, PyVal.val.injEq]
          try ring_nf
  · cases c <;> simp [conditionModel, spec_higher, spec_above]
  · simp [spec_higher, spec_above]

/-- Witness for claim C5 at a concrete input: the feature set holding only
`dark_pixel_ratio = 0.1475` is finite-valued, and the code's weighted score
for Acanthosis Nigricans equals the specification's. -/
theorem c5_witness :
    weightedScore fsC1 (conditionModel .acanthosis)
      = .val (spec_weighted fsC1 (conditionModel .acanthosis)) :=
  (c5_normalization_rules fsC1
    (by
      intro n v hv
      unfold fsC1 at hv
      by_cases h : n = "dark_pixel_ratio"
      · rw [if_pos h] at hv
        cases hv
        simp
      · rw [if_neg h] at hv
        cases hv)
    .acanthosis).1

/-! ## Support lemmas for the recommendation engine -/

theorem mem_allConditions (c : ConditionId) : c ∈ allConditions := by
  cases c <;> simp [allConditions]

theorem pyGe_sixty_imp_forty {x : PyVal} (h : pyGe x (.val 60) = true) :
    pyGe x (.val 40) = true := by
  cases x with
  | nan => simp [pyGe] at h
  | val q =>
      simp only [pyGe_val, decide_eq_true_eq] at h ⊢
      linarith

theorem mem_addList (s : Finset String) (l : List String) (a : String) :
    a ∈ addList s l ↔ a ∈ s ∨ a ∈ l := by
  induction l generalizing s with
  | nil => simp [addList]
  | cons x xs ih =>
      show a ∈ addList (insert x s) xs ↔ _
      rw [ih]
      simp [Finset.mem_insert, or_assoc, or_left_comm]

theorem recsStep_lifestyle (table : ConditionId → ConditionResult) (st : RecState)
    (c : ConditionId) :
    (recsStep table st c).lifestyle =
      if pyGe (table c).confidence (.val 40) = true then
        addList st.lifestyle ((condition_recommendations c).lifestyle.take 2)
      else st.lifestyle := by
  unfold recsStep
  split_ifs with h1 h2 <;> simp_all

theorem recsStep_diet (table : ConditionId → ConditionResult) (st : RecState)
    (c : ConditionId) :
    (recsStep table st c).diet =
      if pyGe (table c).confidence (.val 40) = true then
        addList st.diet ((condition_recommendations c).diet.take 3)
      else st.diet := by
  unfold recsStep
  split_ifs with h1 h2 <;> simp_all

theorem recsStep_medical (table : ConditionId → ConditionResult) (st : RecState)
    (c : ConditionId) :
    (recsStep table st c).medical =
      if pyGe (table c).confidence (.val 40) = true then
        addList st.medical (condition_recommendations c).medical
      else st.medical := by
  unfold recsStep
  split_ifs with h1 h2 <;> simp_all

theorem recsStep_hi (table : ConditionId → ConditionResult) (st : RecState)
    (c : ConditionId) :
    (recsStep table st c).hi =
      st.hi ++ (if pyGe (table c).confidence (.val 60) = true then
        [(c, (table c).confidence, (table c).risk_level)] else []) := by
  unfold recsStep
  split_ifs with h1 h2 h2
  · rfl
  · simp
  · exact absurd (pyGe_sixty_imp_forty h2) h1
  · simp

theorem foldl_recsStep_lifestyle (table : ConditionId → ConditionResult) :
    ∀ (l : List ConditionId) (st : RecState) (a : String),
      (a ∈ (l.foldl (recsStep table) st).lifestyle ↔
        a ∈ st.lifestyle ∨ ∃ c ∈ l, pyGe (table c).confidence (.val 40) = true ∧
          a ∈ (condition_recommendations c).lifestyle.take 2) := by
  intro l
  induction l with
  | nil => simp
  | cons c cs ih =>
      intro st a
      rw [List.foldl_cons, ih]
      rw [recsStep_lifestyle]
      split_ifs with h40
      · rw [mem_addList]
        simp [h40, or_assoc]
      · simp [h40]

theorem foldl_recsStep_diet (table : ConditionId → ConditionResult) :
    ∀ (l : List ConditionId) (st : RecState) (a : String),
      (a ∈ (l.foldl (recsStep table) st).diet ↔
        a ∈ st.diet ∨ ∃ c ∈ l, pyGe (table c).confidence (.val 40) = true ∧
          a ∈ (condition_recommendations c).diet.take 3) := by
  intro l
  induction l with
  | nil => simp
  | cons c cs ih =>
      intro st a
      rw [List.foldl_cons, ih]
      rw [recsStep_diet]
      split_ifs with h40
      · rw [mem_addList]
        simp [h40, or_assoc]
      · simp [h40]

theorem foldl_recsStep_medical (table : ConditionId → ConditionResult) :
    ∀ (l : List ConditionId) (st : RecState) (a : String),
      (a ∈ (l.foldl (recsStep table) st).medical ↔
        a ∈ st.medical ∨ ∃ c ∈ l, pyGe (table c).confidence (.val 40) = true ∧
          a ∈ (condition_recommendations c).medical) := by
  intro l
  induction l with
  | nil => simp
  | cons c cs ih =>
      intro st a
      rw [List.foldl_cons, ih]
      rw [recsStep_medical]
      split_ifs with h40
      · rw [mem_addList]
        simp [h40, or_assoc]
      · simp [h40]

theorem foldl_recsStep_hi (table : ConditionId → ConditionResult) :
    ∀ (l : List ConditionId) (st : RecState),
      (l.foldl (recsStep table) st).hi =
        st.hi ++ (l.filter fun c => pyGe (table c).confidence (.val 60)).map
          (fun c => (c, (table c).confidence, (table c).risk_level)) := by
  intro l
  induction l with
  | nil => simp
  | cons c cs ih =>
      intro st
      rw [List.foldl_cons, ih, recsStep_hi]
      by_cases h60 : pyGe (table c).confidence (.val 60) = true
      · simp [List.filter_cons, h60]
      · simp [List.filter_cons, h60]

theorem generate_recommendations_action_items (table : ConditionId → ConditionResult) :
    (generate_recommendations table).action_items =
      generate_action_items
        ((allConditions.filter fun c => pyGe (table c).confidence (.val 60)).map
          fun c => (c, (table c).confidence, (table c).risk_level)) := by
  show generate_action_items ((allConditions.foldl (recsStep table) ⟨∅, ∅, ∅, []⟩).hi) = _
  rw [foldl_recsStep_hi]
  rfl

theorem countP_action_items_le_one (table : ConditionId → ConditionResult)
    (k : ActionItem → Bool) (ck : ConditionId)
    (hk : ∀ c conf risk a, rule_sentence c conf risk = some a → k a = true → c = ck)
    (hc : k .closerPhotos = false) (hd : k .closerDiscuss = false) :
    ((generate_recommendations table).action_items).countP k ≤ 1 := by
  rw [generate_recommendations_action_items]
  set hi := (allConditions.filter fun c => pyGe (table c).confidence (.val 60)).map
    (fun c => (c, (table c).confidence, (table c).risk_level)) with hhi
  unfold generate_action_items
  rw [List.countP_append]
  have hclosers :
      (if hi.isEmpty then ([] : List ActionItem)
        else [ActionItem.closerPhotos, ActionItem.closerDiscuss]).countP k = 0 := by
    split_ifs
    · rfl
    · simp [List.countP_cons, hc, hd, List.countP_nil]
  rw [hclosers, Nat.add_zero]
  rw [List.countP_filterMap]
  rw [(List.perm_insertionSort confGe hi).countP_eq]
  rw [hhi, List.countP_map]
  have hmono :
      (List.filter (fun c => pyGe (table c).confidence (.val 60)) allConditions).countP
          ((fun e => ((rule_sentence e.1 e.2.1 e.2.2).map k).getD false) ∘
            fun c => (c, (table c).confidence, (table c).risk_level)) ≤
        (List.filter (fun c => pyGe (table c).confidence (.val 60)) allConditions).countP
          (fun c => decide (c = ck)) := by
    apply List.countP_mono_left
    intro c hcmem hpred
    simp only [Function.comp_apply] at hpred
    cases hr : rule_sentence c (table c).confidence (table c).risk_level with
    | none => rw [hr] at hpred; simp at hpred
    | some a =>
        rw [hr] at hpred
        simp at hpred
        simp [hk c _ _ a hr hpred]
  have hfil :
      (List.filter (fun c => pyGe (table c).confidence (.val 60)) allConditions).countP
          (fun c => decide (c = ck)) ≤
        allConditions.countP (fun c => decide (c = ck)) := by
    rw [List.countP_filter]
    apply List.countP_mono_left
    intro x hx h
    simp only [Bool.and_eq_true] at h
    exact h.1
  have hone : allConditions.countP (fun c => decide (c = ck)) = 1 := by
    cases ck <;> rfl
  exact le_trans hmono (le_trans hfil (le_of_eq hone))

theorem closer_not_specific (l : List (ConditionId × PyVal × String)) :
    ActionItem.closerPhotos ∉ l.filterMap fun e => rule_sentence e.1 e.2.1 e.2.2 := by
  intro hmem
  rw [List.mem_filterMap] at hmem
  obtain ⟨e, -, hr⟩ := hmem
  obtain ⟨c, conf, risk⟩ := e
  cases c <;> simp [rule_sentence] at hr <;> split_ifs at hr <;> simp_all

theorem hi_isEmpty_iff (table : ConditionId → ConditionResult) :
    (((allConditions.filter fun c => pyGe (table c).confidence (.val 60)).map
        fun c => (c, (table c).confidence, (table c).risk_level)).isEmpty = false ↔
      ∃ c, pyGe (table c).confidence (.val 60) = true) := by
  rw [List.isEmpty_eq_false_iff_exists_mem]
  constructor
  · rintro ⟨x, hx⟩
    rw [List.mem_map] at hx
    obtain ⟨c, hc, -⟩ := hx
    rw [List.mem_filter] at hc
    exact ⟨c, hc.2⟩
  · rintro ⟨c, hc⟩
    exact ⟨(c, (table c).confidence, (table c).risk_level),
      List.mem_map_of_mem _ (List.mem_filter.mpr ⟨mem_allConditions c, hc⟩)⟩

/-- Claim C6 (amended): for every analysis-result table over the six fixed
conditions, the action-item list equals the reference: condition-specific
sentences are generated only for conditions with confidence at least 60
matching one of the four special rules (insulin, cholesterol, high-risk
inflammatory, high-confidence sun damage), at most one sentence per rule,
ordered by stably sorting the qualifying conditions by descending confidence;
and the two fixed closing action items are appended if and only if at least
one condition has confidence at least 60 — even when no condition-specific
sentence was generated (the code keys the closers on the high-confidence
list, not on the generated sentences). -/
theorem c6_action_item_rules (table : ConditionId → ConditionResult) :
    (generate_recommendations table).action_items = action_items_spec table ∧
    (ActionItem.closerPhotos ∈ (generate_recommendations table).action_items ↔
      ∃ c, pyGe (table c).confidence (.val 60) = true) ∧
    (∀ a ∈ (generate_recommendations table).action_items,
      a = ActionItem.closerPhotos ∨ a = ActionItem.closerDiscuss ∨
        ∃ c, pyGe (table c).confidence (.val 60) = true ∧
          rule_sentence c (table c).confidence (table c).risk_level = some a) ∧
    (generate_recommendations table).action_items.countP isInsulinItem ≤ 1 ∧
    (generate_recommendations table).action_items.countP isCholesterolItem ≤ 1 ∧
    (generate_recommendations table).action_items.countP isInflammatoryItem ≤ 1 ∧
    (generate_recommendations table).action_items.countP isSunDamageItem ≤ 1 := by
  refine ⟨?_, ?_, ?_, ?_, ?_, ?_, ?_⟩
  · rw [generate_recommendations_action_items]
    rfl
  · rw [generate_recommendations_action_items]
    unfold generate_action_items
    rw [List.mem_append]
    rw [← hi_isEmpty_iff table]
    constructor
    · rintro (h | h)
      · exact absurd h (closer_not_specific _)
      · cases hE : (((allConditions.filter fun c =>
            pyGe (table c).confidence (.val 60)).map
            fun c => (c, (table c).confidence, (table c).risk_level)).isEmpty) with
        | true => rw [hE] at h; simp at h
        | false => rfl
    · intro h
      rw [h]
      simp
  · rw [generate_recommendations_action_items]
    intro a ha
    unfold generate_action_items at ha
    rw [List.mem_append] at ha
    rcases ha with ha | ha
    · rw [List.mem_filterMap] at ha
      obtain ⟨e, he, hr⟩ := ha
      have he2 := (List.perm_insertionSort confGe _).subset he
      rw [List.mem_map] at he2
      obtain ⟨c, hc, hec⟩ := he2
      rw [List.mem_filter] at hc
      subst hec
      exact Or.inr (Or.inr ⟨c, hc.2, hr⟩)
    · split_ifs at ha
      · simp at ha
      · simp only [List.mem_cons, List.not_mem_nil, or_false] at ha
        rcases ha with ha | ha
        · exact Or.inl ha
        · exact Or.inr (Or.inl ha)
  · refine countP_action_items_le_one table isInsulinItem .acanthosis ?_ rfl rfl
    intro c conf risk a hr hk
    cases c <;> simp [rule_sentence] at hr
    all_goals first
      | rfl
      | (obtain ⟨-, h2⟩ := hr
         subst h2
         simp [isInsulinItem] at hk)
      | (subst hr
         simp [isInsulinItem] at hk)
  · refine countP_action_items_le_one table isCholesterolItem .xanthelasma ?_ rfl rfl
    intro c conf risk a hr hk
    cases c <;> simp [rule_sentence] at hr
    all_goals first
      | rfl
      | (obtain ⟨-, h2⟩ := hr
         subst h2
         simp [isCholesterolItem] at hk)
      | (subst hr
         simp [isCholesterolItem] at hk)
  · refine countP_action_items_le_one table isInflammatoryItem .inflammatory ?_ rfl rfl
    intro c conf risk a hr hk
    cases c <;> simp [rule_sentence] at hr
    all_goals first
      | rfl
      | (obtain ⟨-, h2⟩ := hr
         subst h2
         simp [isInflammatoryItem] at hk)
      | (subst hr
         simp [isInflammatoryItem] at hk)
  · refine countP_action_items_le_one table isSunDamageItem .ageSpots ?_ rfl rfl
    intro c conf risk a hr hk
    cases c <;> simp [rule_sentence] at hr
    all_goals first
      | rfl
      | (obtain ⟨-, h2⟩ := hr
         subst h2
         simp [isSunDamageItem] at hk)
      | (subst hr
         simp [isSunDamageItem] at hk)

/-- Witness for the amended claim C6 at a concrete input: on the all-zero
table the action-item list equals the reference list. -/
theorem c6_witness :
    (generate_recommendations fun _ =>
        ⟨.val 0, "Low", "", []⟩).action_items =
      action_items_spec fun _ => ⟨.val 0, "Low", "", []⟩ :=
  (c6_action_item_rules _).1

/-- Counterexample to claim C6 as stated: with only Dry/Dehydrated Skin above
confidence 60, no condition-specific action item matches any of the four
rules, yet the code still appends the two fixed closing items (it keys them
on the high-confidence list being non-empty); the claim as stated predicts an
empty action-item list. -/
theorem c6_counterexample :
    (generate_recommendations tableC6).action_items =
        [ActionItem.closerPhotos, ActionItem.closerDiscuss] ∧
    action_items_claimed tableC6 = [] ∧
    (generate_recommendations tableC6).action_items ≠ action_items_claimed tableC6 := by
  have h80 : pyGe (PyVal.val 80) (PyVal.val 60) = true := by
    simp only [pyGe_val, decide_eq_true_eq]
    norm_num
  have h0 : pyGe (PyVal.val 0) (PyVal.val 60) = false := by
    simp only [pyGe_val, decide_eq_false_iff_not]
    norm_num
  have hfil : (allConditions.filter fun c => pyGe (tableC6 c).confidence (.val 60)) =
      [ConditionId.dry] := by
    simp [allConditions, List.filter_cons, tableC6, h80, h0]
  have hhi : ((allConditions.filter fun c => pyGe (tableC6 c).confidence (.val 60)).map
      fun c => (c, (tableC6 c).confidence, (tableC6 c).risk_level)) =
      [(ConditionId.dry, PyVal.val 80, "High")] := by
    rw [hfil]
    rfl
  refine ⟨?_, ?_, ?_⟩
  · rw [generate_recommendations_action_items, hhi]
    rfl
  · unfold action_items_claimed
    rw [hhi]
    rfl
  · rw [generate_recommendations_action_items, hhi]
    unfold action_items_claimed
    rw [hhi]
    simp [generate_action_items, List.insertionSort, List.orderedInsert, rule_sentence]
/-- Claim C7: for every analysis-result table, each recommendation category
contains exactly the strings contributed by the first-2 general
recommendations of that category together with, for each condition of
confidence at least 40, its first 2 lifestyle, first 3 diet, and all medical
recommendations (duplicates collapse by exact string equality); and when every
condition has confidence below 40, each category holds exactly the two general
recommendations and the action-item list is empty. -/
theorem c7_recommendation_sets (table : ConditionId → ConditionResult) :
    (∀ s : String, s ∈ (generate_recommendations table).lifestyle ↔
        s ∈ general_recommendations.lifestyle.take 2 ∨
          ∃ c, pyGe (table c).confidence (.val 40) = true ∧
            s ∈ (condition_recommendations c).lifestyle.take 2) ∧
    (∀ s : String, s ∈ (generate_recommendations table).diet ↔
        s ∈ general_recommendations.diet.take 2 ∨
          ∃ c, pyGe (table c).confidence (.val 40) = true ∧
            s ∈ (condition_recommendations c).diet.take 3) ∧
    (∀ s : String, s ∈ (generate_recommendations table).medical ↔
        s ∈ general_recommendations.medical.take 2 ∨
          ∃ c, pyGe (table c).confidence (.val 40) = true ∧
            s ∈ (condition_recommendations c).medical) ∧
    ((∀ c, pyGe (table c).confidence (.val 40) = false) →
      (generate_recommendations table).lifestyle =
          {"Maintain consistent sleep schedule of 7-9 hours nightly",
            "Practice regular stress management techniques"} ∧
      (generate_recommendations table).diet =
          {"Follow a balanced, nutrient-rich diet",
            "Stay adequately hydrated throughout the day"} ∧
      (generate_recommendations table).medical =
          {"Schedule regular check-ups with your primary care physician",
            "Keep a skin health diary to track changes"} ∧
      (generate_recommendations table).action_items = []) := by
  have hlife : ∀ s : String, s ∈ (generate_recommendations table).lifestyle ↔
      s ∈ general_recommendations.lifestyle.take 2 ∨
        ∃ c, pyGe (table c).confidence (.val 40) = true ∧
          s ∈ (condition_recommendations c).lifestyle.take 2 := by
    intro s
    show s ∈ addList ((allConditions.foldl (recsStep table) ⟨∅, ∅, ∅, []⟩).lifestyle)
        (general_recommendations.lifestyle.take 2) ↔ _
    rw [mem_addList, foldl_recsStep_lifestyle]
    constructor
    · rintro ((h | ⟨c, -, hge, hmem⟩) | h)
      · simp at h
      · exact Or.inr ⟨c, hge, hmem⟩
      · exact Or.inl h
    · rintro (h | ⟨c, hge, hmem⟩)
      · exact Or.inr h
      · exact Or.inl (Or.inr ⟨c, mem_allConditions c, hge, hmem⟩)
  have hdiet : ∀ s : String, s ∈ (generate_recommendations table).diet ↔
      s ∈ general_recommendations.diet.take 2 ∨
        ∃ c, pyGe (table c).confidence (.val 40) = true ∧
          s ∈ (condition_recommendations c).diet.take 3 := by
    intro s
    show s ∈ addList ((allConditions.foldl (recsStep table) ⟨∅, ∅, ∅, []⟩).diet)
        (general_recommendations.diet.take 2) ↔ _
    rw [mem_addList, foldl_recsStep_diet]
    constructor
    · rintro ((h | ⟨c, -, hge, hmem⟩) | h)
      · simp at h
      · exact Or.inr ⟨c, hge, hmem⟩
      · exact Or.inl h
    · rintro (h | ⟨c, hge, hmem⟩)
      · exact Or.inr h
      · exact Or.inl (Or.inr ⟨c, mem_allConditions c, hge, hmem⟩)
  have hmed : ∀ s : String, s ∈ (generate_recommendations table).medical ↔
      s ∈ general_recommendations.medical.take 2 ∨
        ∃ c, pyGe (table c).confidence (.val 40) = true ∧
          s ∈ (condition_recommendations c).medical := by
    intro s
    show s ∈ addList ((allConditions.foldl (recsStep table) ⟨∅, ∅, ∅, []⟩).medical)
        (general_recommendations.medical.take 2) ↔ _
    rw [mem_addList, foldl_recsStep_medical]
    constructor
    · rintro ((h | ⟨c, -, hge, hmem⟩) | h)
      · simp at h
      · exact Or.inr ⟨c, hge, hmem⟩
      · exact Or.inl h
    · rintro (h | ⟨c, hge, hmem⟩)
      · exact Or.inr h
      · exact Or.inl (Or.inr ⟨c, mem_allConditions c, hge, hmem⟩)
  refine ⟨hlife, hdiet, hmed, ?_⟩
  intro hall
  have h60 : ∀ c, pyGe (table c).confidence (.val 60) = false := by
    intro c
    cases h : pyGe (table c).confidence (.val 60) with
    | false => rfl
    | true => exact absurd (pyGe_sixty_imp_forty h) (by simp [hall c])
  refine ⟨?_, ?_, ?_, ?_⟩
  · ext s
    rw [hlife s]
    simp [hall, general_recommendations]
  · ext s
    rw [hdiet s]
    simp [hall, general_recommendations]
  · ext s
    rw [hmed s]
    simp [hall, general_recommendations]
  · rw [generate_recommendations_action_items]
    have : (allConditions.filter fun c => pyGe (table c).confidence (.val 60)) = [] := by
      simp [allConditions, List.filter_cons, h60]
    rw [this]
    rfl

/-- Witness for claim C7 at a concrete input: on the all-zero table (every
confidence 0.0, below 40) the lifestyle set is exactly the two fixed general
lifestyle recommendations and the action-item list is empty. -/
theorem c7_witness :
    (generate_recommendations fun _ => ⟨.val 0, "Low", "", []⟩).lifestyle =
        {"Maintain consistent sleep schedule of 7-9 hours nightly",
          "Practice regular stress management techniques"} ∧
    (generate_recommendations fun _ => ⟨.val 0, "Low", "", []⟩).action_items = [] := by
  have h := (c7_recommendation_sets fun _ => ⟨.val 0, "Low", "", []⟩).2.2.2
    (by
      intro c
      simp only [pyGe_val, decide_eq_false_iff_not]
      norm_num)
  exact ⟨h.1, h.2.2.2⟩

/-! ## Claims C2 and C3: feature ranges and the degenerate yellowness case -/

theorem grid_card (h w : ℕ) : (grid h w).card = h * w := by
  simp [grid]

theorem filter_card_div_bounds (h w : ℕ) (s : Finset (ℕ × ℕ))
    (hle : s.card ≤ h * w) :
    0 ≤ (s.card : ℚ) / (h * w) ∧ (s.card : ℚ) / (h * w) ≤ 1 := by
  constructor
  · positivity
  · apply div_le_one_of_le
    · exact_mod_cast hle
    · positivity

theorem at2_nonneg (g : Plane) (i j : ℤ) : 0 ≤ at2 g i j := Int.ofNat_nonneg _

theorem at2_le (g : Plane) (hg : ValidPlane g) (i j : ℤ) : at2 g i j ≤ 255 := by
  unfold at2
  exact_mod_cast hg _ _

theorem sobelX_abs_le (g : Plane) (hg : ValidPlane g) (i j : ℕ) :
    |sobelX g i j| ≤ 1020 := by
  unfold sobelX
  have b1 := at2_nonneg g ((i : ℤ) - 1) ((j : ℤ) + 1)
  have b2 := at2_nonneg g (i : ℤ) ((j : ℤ) + 1)
  have b3 := at2_nonneg g ((i : ℤ) + 1) ((j : ℤ) + 1)
  have b4 := at2_nonneg g ((i : ℤ) - 1) ((j : ℤ) - 1)
  have b5 := at2_nonneg g (i : ℤ) ((j : ℤ) - 1)
  have b6 := at2_nonneg g ((i : ℤ) + 1) ((j : ℤ) - 1)
  have c1 := at2_le g hg ((i : ℤ) - 1) ((j : ℤ) + 1)
  have c2 := at2_le g hg (i : ℤ) ((j : ℤ) + 1)
  have c3 := at2_le g hg ((i : ℤ) + 1) ((j : ℤ) + 1)
  have c4 := at2_le g hg ((i : ℤ) - 1) ((j : ℤ) - 1)
  have c5 := at2_le g hg (i : ℤ) ((j : ℤ) - 1)
  have c6 := at2_le g hg ((i : ℤ) + 1) ((j : ℤ) - 1)
  rw [abs_le]
  constructor <;> linarith

theorem sobelY_abs_le (g : Plane) (hg : ValidPlane g) (i j : ℕ) :
    |sobelY g i j| ≤ 1020 := by
  unfold sobelY
  have b1 := at2_nonneg g ((i : ℤ) + 1) ((j : ℤ) - 1)
  have b2 := at2_nonneg g ((i : ℤ) + 1) (j : ℤ)
  have b3 := at2_nonneg g ((i : ℤ) + 1) ((j : ℤ) + 1)
  have b4 := at2_nonneg g ((i : ℤ) - 1) ((j : ℤ) - 1)
  have b5 := at2_nonneg g ((i : ℤ) - 1) (j : ℤ)
  have b6 := at2_nonneg g ((i : ℤ) - 1) ((j : ℤ) + 1)
  have c1 := at2_le g hg ((i : ℤ) + 1) ((j : ℤ) - 1)
  have c2 := at2_le g hg ((i : ℤ) + 1) (j : ℤ)
  have c3 := at2_le g hg ((i : ℤ) + 1) ((j : ℤ) + 1)
  have c4 := at2_le g hg ((i : ℤ) - 1) ((j : ℤ) - 1)
  have c5 := at2_le g hg ((i : ℤ) - 1) (j : ℤ)
  have c6 := at2_le g hg ((i : ℤ) - 1) ((j : ℤ) + 1)
  rw [abs_le]
  constructor <;> linarith

theorem sqrt_mag_le {x y : ℤ} (hx : |x| ≤ 1020) (hy : |y| ≤ 1020) :
    Real.sqrt ((x : ℝ) ^ 2 + (y : ℝ) ^ 2) ≤ 2040 := by
  have hx' : |(x : ℝ)| ≤ 1020 := by exact_mod_cast hx
  have hy' : |(y : ℝ)| ≤ 1020 := by exact_mod_cast hy
  have h1 : (x : ℝ) ^ 2 + (y : ℝ) ^ 2 ≤ 2040 ^ 2 := by
    have hx2 : (x : ℝ) ^ 2 ≤ 1020 ^ 2 := by
      rw [← sq_abs]
      exact pow_le_pow_left (abs_nonneg _) hx' 2
    have hy2 : (y : ℝ) ^ 2 ≤ 1020 ^ 2 := by
      rw [← sq_abs]
      exact pow_le_pow_left (abs_nonneg _) hy' 2
    nlinarith
  calc Real.sqrt ((x : ℝ) ^ 2 + (y : ℝ) ^ 2) ≤ Real.sqrt (2040 ^ 2) :=
        Real.sqrt_le_sqrt h1
    _ = 2040 := by
        rw [Real.sqrt_sq (by norm_num)]

theorem texture_roughness_bounds (g : Plane) (hg : ValidPlane g) :
    0 ≤ texture_roughness g ∧ texture_roughness g ≤ 8 := by
  have hterm : ∀ i j : ℕ,
      Real.sqrt ((sobelX g i j : ℝ) ^ 2 + (sobelY g i j : ℝ) ^ 2) ≤ 2040 :=
    fun i j => sqrt_mag_le (sobelX_abs_le g hg i j) (sobelY_abs_le g hg i j)
  have hS0 : 0 ≤ ∑ i ∈ Finset.range g.h, ∑ j ∈ Finset.range g.w,
      Real.sqrt ((sobelX g i j : ℝ) ^ 2 + (sobelY g i j : ℝ) ^ 2) := by
    apply Finset.sum_nonneg
    intro i _
    apply Finset.sum_nonneg
    intro j _
    exact Real.sqrt_nonneg _
  have hS : (∑ i ∈ Finset.range g.h, ∑ j ∈ Finset.range g.w,
      Real.sqrt ((sobelX g i j : ℝ) ^ 2 + (sobelY g i j : ℝ) ^ 2))
      ≤ (g.h * g.w : ℕ) * 2040 := by
    calc (∑ i ∈ Finset.range g.h, ∑ j ∈ Finset.range g.w,
        Real.sqrt ((sobelX g i j : ℝ) ^ 2 + (sobelY g i j : ℝ) ^ 2))
        ≤ ∑ _i ∈ Finset.range g.h, (g.w : ℝ) * 2040 := by
          apply Finset.sum_le_sum
          intro i _
          calc (∑ j ∈ Finset.range g.w,
              Real.sqrt ((sobelX g i j : ℝ) ^ 2 + (sobelY g i j : ℝ) ^ 2))
              ≤ ∑ _j ∈ Finset.range g.w, (2040 : ℝ) :=
                Finset.sum_le_sum fun j _ => hterm i j
            _ = (g.w : ℝ) * 2040 := by
                rw [Finset.sum_const, Finset.card_range, nsmul_eq_mul]
      _ = (g.h : ℝ) * ((g.w : ℝ) * 2040) := by
          rw [Finset.sum_const, Finset.card_range, nsmul_eq_mul]
      _ = (g.h * g.w : ℕ) * 2040 := by
          push_cast
          ring
  constructor
  · unfold texture_roughness
    positivity
  · unfold texture_roughness
    rw [div_div]
    rcases Nat.eq_zero_or_pos (g.h * g.w) with hzero | hpos
    · rcases Nat.mul_eq_zero.mp hzero with hh | hw
      · rw [hh]
        simp
      · rw [hw]
        simp
    · have hd : (0 : ℝ) < (g.h : ℝ) * (g.w : ℝ) * 255 := by
        have : (0 : ℝ) < (g.h * g.w : ℕ) := by exact_mod_cast hpos
        push_cast at this
        nlinarith
      rw [div_le_iff hd]
      calc (∑ i ∈ Finset.range g.h, ∑ j ∈ Finset.range g.w,
          Real.sqrt ((sobelX g i j : ℝ) ^ 2 + (sobelY g i j : ℝ) ^ 2))
          ≤ (g.h * g.w : ℕ) * 2040 := hS
        _ = 8 * ((g.h : ℝ) * (g.w : ℝ) * 255) := by
            push_cast
            ring

theorem redness_term_bounds (p : ℕ × ℕ × ℕ) :
    -1 ≤ ((p.1 : ℚ) - p.2.1) / ((p.1 : ℚ) + p.2.1 + 1 / 1000000) ∧
    ((p.1 : ℚ) - p.2.1) / ((p.1 : ℚ) + p.2.1 + 1 / 1000000) ≤ 1 := by
  have hr : (0 : ℚ) ≤ (p.1 : ℚ) := by positivity
  have hg : (0 : ℚ) ≤ (p.2.1 : ℚ) := by positivity
  have hd : (0 : ℚ) < (p.1 : ℚ) + p.2.1 + 1 / 1000000 := by positivity
  constructor
  · rw [le_div_iff hd]
    linarith
  · rw [div_le_one hd]
    linarith

theorem redness_index_bounds (px : List (ℕ × ℕ × ℕ)) :
    -1 ≤ redness_index px ∧ redness_index px ≤ 1 := by
  unfold redness_index
  rcases px.eq_nil_or_concat with hnil | -
  · rw [hnil]
    norm_num
  set l := px.map fun p => ((p.1 : ℚ) - p.2.1) / ((p.1 : ℚ) + p.2.1 + 1 / 1000000)
    with hl
  have hup : l.sum ≤ l.length • (1 : ℚ) :=
    List.sum_le_card_nsmul l 1 fun x hx => by
      rw [hl, List.mem_map] at hx
      obtain ⟨p, -, rfl⟩ := hx
      exact (redness_term_bounds p).2
  have hlo : l.length • (-1 : ℚ) ≤ l.sum :=
    List.card_nsmul_le_sum l (-1) fun x hx => by
      rw [hl, List.mem_map] at hx
      obtain ⟨p, -, rfl⟩ := hx
      exact (redness_term_bounds p).1
  have hlen : l.length = px.length := by
    rw [hl, List.length_map]
  rcases Nat.eq_zero_or_pos px.length with h0 | hpos
  · rw [h0]
    norm_num
  · have hplen : (0 : ℚ) < (px.length : ℚ) := by exact_mod_cast hpos
    rw [nsmul_eq_mul, hlen] at hup hlo
    constructor
    · rw [le_div_iff hplen]
      linarith
    · rw [div_le_one hplen]
      linarith

/-- Claim C2 (amended): for every gray plane, edge map, skin mask and RGB
sample list, `dark_pixel_ratio` and `edge_density` lie within [0, 1] and
`skin_coverage` within [0, 100]; but `redness_index` ranges over [-1, 1]
(it is negative whenever green dominates red), and `texture_roughness` for an
8-bit plane lies within [0, 8] (the mean Sobel magnitude can reach
4*255*sqrt(2), so after the division by 255 values above 1 occur). -/
theorem c2_feature_ranges (g : Plane) (h w : ℕ) (edges mask : ℕ → ℕ → Bool)
    (px : List (ℕ × ℕ × ℕ)) :
    (0 ≤ dark_pixel_ratio g ∧ dark_pixel_ratio g ≤ 1) ∧
    (0 ≤ edge_density h w edges ∧ edge_density h w edges ≤ 1) ∧
    (ValidPlane g → 0 ≤ texture_roughness g ∧ texture_roughness g ≤ 8) ∧
    (-1 ≤ redness_index px ∧ redness_index px ≤ 1) ∧
    (0 ≤ skin_coverage h w mask ∧ skin_coverage h w mask ≤ 100) := by
  refine ⟨?_, ?_, texture_roughness_bounds g, redness_index_bounds px, ?_⟩
  · unfold dark_pixel_ratio
    apply filter_card_div_bounds
    calc ((grid g.h g.w).filter fun ij => ((g.pix ij.1 ij.2 : ℚ) < 765 / 10)).card
        ≤ (grid g.h g.w).card := Finset.card_filter_le _ _
      _ = g.h * g.w := grid_card g.h g.w
  · unfold edge_density
    apply filter_card_div_bounds
    calc ((grid h w).filter fun ij => edges ij.1 ij.2).card
        ≤ (grid h w).card := Finset.card_filter_le _ _
      _ = h * w := grid_card h w
  · unfold skin_coverage
    have hb := filter_card_div_bounds h w ((grid h w).filter fun ij => mask ij.1 ij.2)
      (by
        calc ((grid h w).filter fun ij => mask ij.1 ij.2).card
            ≤ (grid h w).card := Finset.card_filter_le _ _
          _ = h * w := grid_card h w)
    constructor
    · nlinarith [hb.1]
    · nlinarith [hb.2]

theorem stripeGray_valid : ValidPlane stripeGray := by
  intro i j
  unfold stripeGray
  dsimp only
  split_ifs <;> norm_num

/-- Witness for the amended claim C2 at a concrete input: the stripe plane is
a valid 8-bit plane whose roughness obeys the amended [0, 8] bound. -/
theorem c2_witness :
    0 ≤ texture_roughness stripeGray ∧ texture_roughness stripeGray ≤ 8 :=
  ((c2_feature_ranges stripeGray 0 0 (fun _ _ => false) (fun _ _ => false)
    []).2.2.1) stripeGray_valid

/-- Counterexample to claim C2 as stated: on a single pure-green RGB sample
the redness index is negative (the claim asserts it lies within [0, 1]), and
on the black/white stripe plane the texture roughness equals 2, exceeding the
claimed upper bound 1. -/
theorem c2_counterexample :
    redness_index [(0, 255, 0)] < 0 ∧ texture_roughness stripeGray = 2 := by
  constructor
  · unfold redness_index
    norm_num
  · have hx00 : sobelX stripeGray 0 0 = 0 := by decide
    have hx01 : sobelX stripeGray 0 1 = 1020 := by decide
    have hx02 : sobelX stripeGray 0 2 = 1020 := by decide
    have hx03 : sobelX stripeGray 0 3 = 0 := by decide
    have hx10 : sobelX stripeGray 1 0 = 0 := by decide
    have hx11 : sobelX stripeGray 1 1 = 1020 := by decide
    have hx12 : sobelX stripeGray 1 2 = 1020 := by decide
    have hx13 : sobelX stripeGray 1 3 = 0 := by decide
    have hy : ∀ i j, sobelY stripeGray i j = 0 := by
      intro i j
      unfold sobelY at2 stripeGray
      simp
    have hs0 : Real.sqrt (((0 : ℤ) : ℝ) ^ 2 + ((0 : ℤ) : ℝ) ^ 2) = 0 := by
      push_cast
      simp
    have hs1 : Real.sqrt (((1020 : ℤ) : ℝ) ^ 2 + ((0 : ℤ) : ℝ) ^ 2) = 1020 := by
      push_cast
      rw [show ((1020 : ℝ) ^ 2 + (0 : ℝ) ^ 2) = 1020 ^ 2 by ring,
        Real.sqrt_sq (by norm_num)]
    unfold texture_roughness
    rw [show stripeGray.h = 2 from rfl, show stripeGray.w = 4 from rfl]
    rw [Finset.sum_range_succ, Finset.sum_range_succ, Finset.sum_range_zero]
    rw [Finset.sum_range_succ, Finset.sum_range_succ, Finset.sum_range_succ,
      Finset.sum_range_succ, Finset.sum_range_zero]
    rw [Finset.sum_range_succ, Finset.sum_range_succ, Finset.sum_range_succ,
      Finset.sum_range_succ, Finset.sum_range_zero]
    rw [hx00, hx01, hx02, hx03, hx10, hx11, hx12, hx13]
    rw [hy 0 0, hy 0 1, hy 0 2, hy 0 3, hy 1 0, hy 1 1, hy 1 2, hy 1 3]
    rw [hs0, hs1]
    norm_num

/-- Claim C3 (amended): when no Lab b-channel sample exceeds 128, the
yellowness computation does not raise — it is total and returns NaN — and
that NaN is treated exactly like a missing feature by the scorer: the
weighted score, and hence the clamped probability of every condition, is
unchanged when the NaN entry is deleted from the feature dictionary (so it
contributes zero to every condition score).  When some sample does exceed
128 the returned yellowness is a finite scalar.  The claim's assertion that
every value in the returned feature set is finite fails: the degenerate
yellowness IS the NaN value (see `c3_counterexample`). -/
theorem c3_yellowness_degenerate :
    (∀ p : Plane, (∀ i j, i < p.h → j < p.w → p.pix i j ≤ 128) →
      yellowness p = PyVal.nan) ∧
    (∀ p : Plane, (∃ i j, i < p.h ∧ j < p.w ∧ 128 < p.pix i j) →
      (yellowness p).isFinite = true) ∧
    (∀ (fs : FeatureSet) (m : ConditionModel), fs "yellowness" = some PyVal.nan →
      weightedScore fs m =
        weightedScore (fun n => if n = "yellowness" then none else fs n) m) ∧
    (∀ (fs : FeatureSet) (m : ConditionModel) (noise : ℚ),
      fs "yellowness" = some PyVal.nan →
      calculate_condition_probability fs m noise =
        calculate_condition_probability
          (fun n => if n = "yellowness" then none else fs n) m noise) := by
  have hws : ∀ (fs : FeatureSet) (m : ConditionModel), fs "yellowness" = some PyVal.nan →
      weightedScore fs m =
        weightedScore (fun n => if n = "yellowness" then none else fs n) m := by
    intro fs m h
    unfold weightedScore featureScores
    congr 1
    apply List.map_congr_left
    rintro ⟨name, w, t⟩ hmem
    dsimp only
    by_cases hn : name = "yellowness"
    · subst hn
      rw [h]
      rw [if_pos rfl]
      have hnorm : normScore "yellowness" PyVal.nan t = .val 0 := by
        unfold normScore
        rw [if_neg (by simp [higher_is_stronger]), if_pos (by simp [above_threshold])]
        rfl
      dsimp only
      rw [hnorm]
      simp
    · rw [if_neg hn]
  refine ⟨?_, ?_, hws, ?_⟩
  · intro p hall
    unfold yellowness
    rw [if_pos]
    rw [Finset.card_eq_zero, Finset.filter_eq_empty_iff]
    rintro ⟨i, j⟩ hij
    rw [grid, Finset.mem_product, Finset.mem_range, Finset.mem_range] at hij
    simp only [not_lt]
    exact hall i j hij.1 hij.2
  · rintro p ⟨i, j, hi, hj, hpix⟩
    unfold yellowness
    rw [if_neg]
    · rfl
    · rw [Finset.card_eq_zero, Finset.filter_eq_empty_iff]
      intro hempty
      exact hempty (x := (i, j))
        (by
          rw [grid, Finset.mem_product, Finset.mem_range, Finset.mem_range]
          exact ⟨hi, hj⟩)
        (by simpa using hpix)
  · intro fs m noise h
    unfold calculate_condition_probability
    rw [hws fs m h]

/-- Witness for the amended claim C3 at a concrete input: a 1 x 1 plane whose
single sample is 128 yields NaN yellowness, and the scorer's weighted score
for the empty-but-NaN-yellowness dictionary equals the score with the key
removed. -/
theorem c3_witness :
    yellowness ⟨1, 1, fun _ _ => 128⟩ = PyVal.nan ∧
    weightedScore (fun n => if n = "yellowness" then some PyVal.nan else none)
        (conditionModel .seborrheic) =
      weightedScore
        (fun n => if n = "yellowness" then none else
          if n = "yellowness" then some PyVal.nan else none)
        (conditionModel .seborrheic) := by
  constructor
  · exact c3_yellowness_degenerate.1 ⟨1, 1, fun _ _ => 128⟩
      (fun i j _ _ => le_refl 128)
  · exact c3_yellowness_degenerate.2.2.1
      (fun n => if n = "yellowness" then some PyVal.nan else none)
      (conditionModel .seborrheic) (by rfl)

/-- Counterexample to claim C3 as stated: for the all-black image no Lab
b-channel sample exceeds 128, and the returned yellowness feature is NaN —
not a finite scalar — so "every value in the returned feature set is a
finite scalar" fails (NumPy emits a RuntimeWarning and yields NaN for the
mean of an empty selection; nothing substitutes a neutral value). -/
theorem c3_counterexample :
    yellowness blackLabB = PyVal.nan ∧ (PyVal.nan).isFinite = false := by
  constructor
  · unfold yellowness
    rw [if_pos]
    rw [Finset.card_eq_zero, Finset.filter_eq_empty_iff]
    rintro ⟨i, j⟩ -
    unfold blackLabB
    simp
  · rfl

end Skintel
